import Mathlib

/-!
Verification development for the ZZD log extraction engine (zzdPlot.py).

The source's core is `extract_zzd_data(zzd_bytes)`: four pre-compiled byte
regexes (RE_START, RE_END, RE_CONV, RE_WARN) are run over the raw byte
buffer, a fatal-marker substring test is applied to the last 2000 bytes,
time bounds are inferred from the matched data when the explicit markers
are absent, and a dict of records is returned.

The embedding below models:
  * bytes as `List Nat` (byte values 0..255);
  * the four regex patterns as token lists over a small backtracking
    matcher `mtchF` whose semantics follow Python `re` (leftmost match,
    lazy quantifiers prefer the shortest extension, greedy the longest,
    alternation tried left to right, `re.IGNORECASE` as ASCII case
    folding, `re.DOTALL` letting `.` cross newlines);
  * Python `float()` on a matched token as `pyFloat : List Nat → Option ℚ`
    (idealized real arithmetic over ℚ; a raised ValueError is `none`);
  * the whole extraction as `extract_zzd_data : List Nat → Option ParseResult`,
    where `none` models an uncaught exception escaping the function.
-/

/-- Byte values of an ASCII string literal. -/
def S (s : String) : List Nat := s.toList.map Char.toNat

/-- ASCII lower-casing of one byte, the case folding `re.IGNORECASE`
applies to byte patterns. -/
def lowerB (b : Nat) : Nat := if 65 ≤ b ∧ b ≤ 90 then b + 32 else b

/-- Case-insensitive byte comparison (the `re.IGNORECASE` flag of all four
source patterns). -/
def ciEq (a b : Nat) : Bool := lowerB a == lowerB b

/-- Membership in the byte class `\d` of a bytes pattern: ASCII digits. -/
def isDigitB (b : Nat) : Bool := 48 ≤ b && b ≤ 57

/-- Membership in the byte class `\s` of a bytes pattern:
space, tab, newline, carriage return, vertical tab, form feed. -/
def isSpaceB (b : Nat) : Bool :=
  b == 32 || b == 9 || b == 10 || b == 13 || b == 11 || b == 12

/-- Membership in the byte class `\w` of a bytes pattern. -/
def isWordB (b : Nat) : Bool :=
  (48 ≤ b && b ≤ 57) || (65 ≤ b && b ≤ 90) || (97 ≤ b && b ≤ 122) || b == 95

/-- The single-character classes the four source patterns quantify over. -/
inductive CharCls where
  | dotNL
  | dotAll
  | digit
  | space
  | nonspace
  | word
deriving DecidableEq

/-- Class membership: `dotNL` is `.` without DOTALL (anything but newline),
`dotAll` is `.` under DOTALL. -/
def clsMem (c : CharCls) (b : Nat) : Bool :=
  match c with
  | .dotNL => b != 10
  | .dotAll => true
  | .digit => isDigitB b
  | .space => isSpaceB b
  | .nonspace => !isSpaceB b
  | .word => isWordB b

/-- Tokens of the four source regex patterns. Quantifiers in those patterns
range only over single-character classes, which the tokens reflect:
`starLazy c` is `c*?`, `starGreedy c` is `c*`, `optLit b` is an optional
literal byte (the `\.?` of the time group), `gOpen`/`gClose` delimit a
capture group, `alts` is an alternation of literal words (the
`(warning|note|error)` group body), and `numGroup i` is the time capture
group `(\d+\.?\d*)` as one token (see `mtchF` for why that is exact in
these patterns). -/
inductive Tok where
  | lit (b : Nat)
  | cls (c : CharCls)
  | starLazy (c : CharCls)
  | starGreedy (c : CharCls)
  | optLit (b : Nat)
  | gOpen (i : Nat)
  | gClose (i : Nat)
  | alts (cs : List (List Nat))
  | numGroup (i : Nat)
deriving DecidableEq

/-- A literal byte-string of a pattern, one `lit` token per byte. -/
def lits (s : String) : List Tok := (S s).map Tok.lit

/-- Captured groups (and pending group-start positions): group index paired
with the byte substring (resp. the input suffix at the group start). -/
abbrev Caps := List (Nat × List Nat)

/-- Case-insensitive literal-word strip: `stripCI w s` removes `w` from the
front of `s` when it is there (up to ASCII case). -/
def stripCI : List Nat → List Nat → Option (List Nat)
  | [], s => some s
  | _ :: _, [] => none
  | c :: cs, b :: bs => if ciEq c b then stripCI cs bs else none

/-- Token weight: `alts` counts its alternatives, so that the matcher's
recursion measure decreases when an alternative is discarded. -/
def twOf : Tok → Nat
  | Tok.alts cs => cs.length + 1
  | _ => 1

/-- Summed token weight of a pattern. -/
def twSum (toks : List Tok) : Nat := (toks.map twOf).sum

/-- The backtracking matcher, Python `re` semantics specialized to the
token shapes above. `mtchF fuel toks s opens caps` matches the pattern
`toks` against a prefix of `s`, returning the completed captures and the
input rest after the match. Choice points follow Python's priority order:
a lazy star first tries the continuation and only then consumes a
character; a greedy star and an optional literal first consume; an
alternation is tried left to right; earlier choice points are reconsidered
only after every later choice has failed (which the
recursion-on-continuation structure implements exactly).

The group `(\d+\.?\d*)` is matched by `numGroup` with its first-preference
(maximal) munch only: in all four source patterns the group is followed
either by the end of the pattern or by `.*?\n` under DOTALL, and since the
bytes a shorter munch would give back are digits or a dot - never the
newline the continuation looks for - a shorter munch succeeds exactly when
the maximal one does, so discarding the other preferences is exact there.

The fuel only forces structural recursion: every recursive call strictly
decreases `s.length * (twSum toks + 1) + twSum toks`, and the wrapper
`mtch` passes that measure plus one, so the fuel never reaches zero. -/
def mtchF : Nat → List Tok → List Nat → Caps → Caps → Option (Caps × List Nat)
  | 0, _, _, _, _ => none
  | _ + 1, [], s, _, caps => some (caps, s)
  | fuel + 1, Tok.lit b :: rest, s, opens, caps =>
    match s with
    | [] => none
    | c :: s1 => if ciEq b c then mtchF fuel rest s1 opens caps else none
  | fuel + 1, Tok.cls cc :: rest, s, opens, caps =>
    match s with
    | [] => none
    | c :: s1 => if clsMem cc c then mtchF fuel rest s1 opens caps else none
  | fuel + 1, Tok.starLazy cc :: rest, s, opens, caps =>
    match mtchF fuel rest s opens caps with
    | some r => some r
    | none =>
      match s with
      | [] => none
      | c :: s1 =>
        if clsMem cc c then mtchF fuel (Tok.starLazy cc :: rest) s1 opens caps
        else none
  | fuel + 1, Tok.starGreedy cc :: rest, s, opens, caps =>
    match s with
    | [] => mtchF fuel rest [] opens caps
    | c :: s1 =>
      if clsMem cc c then
        match mtchF fuel (Tok.starGreedy cc :: rest) s1 opens caps with
        | some r => some r
        | none => mtchF fuel rest s opens caps
      else mtchF fuel rest s opens caps
  | fuel + 1, Tok.optLit b :: rest, s, opens, caps =>
    match s with
    | [] => mtchF fuel rest [] opens caps
    | c :: s1 =>
      if ciEq b c then
        match mtchF fuel rest s1 opens caps with
        | some r => some r
        | none => mtchF fuel rest s opens caps
      else mtchF fuel rest s opens caps
  | fuel + 1, Tok.gOpen i :: rest, s, opens, caps =>
    mtchF fuel rest s ((i, s) :: opens) caps
  | fuel + 1, Tok.gClose i :: rest, s, opens, caps =>
    match List.lookup i opens with
    | some sv => mtchF fuel rest s opens ((i, sv.take (sv.length - s.length)) :: caps)
    | none => none
  | fuel + 1, Tok.alts cs :: rest, s, opens, caps =>
    match cs with
    | [] => none
    | c :: cs1 =>
      match stripCI c s with
      | some s1 =>
        match mtchF fuel rest s1 opens caps with
        | some r => some r
        | none => mtchF fuel (Tok.alts cs1 :: rest) s opens caps
      | none => mtchF fuel (Tok.alts cs1 :: rest) s opens caps
  | fuel + 1, Tok.numGroup i :: rest, s, opens, caps =>
    match s with
    | [] => none
    | c :: _ =>
      if isDigitB c then
        let ds := s.takeWhile isDigitB
        match s.dropWhile isDigitB with
        | 46 :: s2 =>
          mtchF fuel rest (s2.dropWhile isDigitB) opens
            ((i, ds ++ 46 :: s2.takeWhile isDigitB) :: caps)
        | s1 => mtchF fuel rest s1 opens ((i, ds) :: caps)
      else none

/-- Matching with sufficient fuel (see `mtchF`). -/
def mtch (toks : List Tok) (s : List Nat) (opens caps : Caps) : Option (Caps × List Nat) :=
  mtchF (s.length * (twSum toks + 1) + twSum toks + 1) toks s opens caps

/-- Python `re.search`: try a match at every start position, left to right.
Returns the captures, the input rest after the match, and whether the
match was empty (needed by the iterator below to advance). -/
def search (toks : List Tok) : List Nat → Option (Caps × List Nat × Bool)
  | [] =>
    match mtch toks [] [] [] with
    | some (caps, rest) => some (caps, rest, rest.length == 0)
    | none => none
  | b :: s1 =>
    match mtch toks (b :: s1) [] [] with
    | some (caps, rest) => some (caps, rest, rest.length == s1.length + 1)
    | none => search toks s1

/-- Python `re.finditer`, fuelled: repeated non-overlapping search, resuming
after each match's end (one position further on an empty match). Every
round strictly shortens the remaining input, so `s.length + 1` rounds
(as passed by `finditer`) never exhaust. -/
def finditerF : Nat → List Tok → List Nat → List Caps
  | 0, _, _ => []
  | fuel + 1, toks, s =>
    match search toks s with
    | none => []
    | some (caps, rest, isEmp) =>
      if isEmp then
        match rest with
        | [] => [caps]
        | _ :: r1 => caps :: finditerF fuel toks r1
      else caps :: finditerF fuel toks rest

/-- Python `re.finditer` over the whole of `s`. -/
def finditer (toks : List Tok) (s : List Nat) : List Caps :=
  finditerF (s.length + 1) toks s

/-- Group access `m.group(i)`: the captured bytes (a successful match always
has its mandatory groups present; the default is never reached there). -/
def capGet (caps : Caps) (i : Nat) : List Nat := (List.lookup i caps).getD []

/-- RE_START: `start time.*?(\d+\.?\d*)` with IGNORECASE (no DOTALL, so `.`
stays on the line). -/
def reStartToks : List Tok :=
  lits "start time" ++ [Tok.starLazy .dotNL, Tok.numGroup 1]

/-- RE_END: `end time.*?(\d+\.?\d*)` with IGNORECASE. -/
def reEndToks : List Tok :=
  lits "end time" ++ [Tok.starLazy .dotNL, Tok.numGroup 1]

/-- RE_CONV: `Poor model convergence.*?time\s+(\d+\.?\d*).*?\n.*?\n.*?MAX
DQ=\s*(\S+)\s+at\s+(\S+).*?MAX DH=\s*(\S+)\s+at\s+(\S+)` with
DOTALL and IGNORECASE. -/
def reConvToks : List Tok :=
  lits "Poor model convergence" ++ [Tok.starLazy .dotAll] ++ lits "time" ++
  [Tok.cls .space, Tok.starGreedy .space, Tok.numGroup 1,
   Tok.starLazy .dotAll, Tok.lit 10, Tok.starLazy .dotAll, Tok.lit 10,
   Tok.starLazy .dotAll] ++
  lits "MAX DQ=" ++
  [Tok.starGreedy .space,
   Tok.gOpen 2, Tok.cls .nonspace, Tok.starGreedy .nonspace, Tok.gClose 2,
   Tok.cls .space, Tok.starGreedy .space] ++
  lits "at" ++
  [Tok.cls .space, Tok.starGreedy .space,
   Tok.gOpen 3, Tok.cls .nonspace, Tok.starGreedy .nonspace, Tok.gClose 3,
   Tok.starLazy .dotAll] ++
  lits "MAX DH=" ++
  [Tok.starGreedy .space,
   Tok.gOpen 4, Tok.cls .nonspace, Tok.starGreedy .nonspace, Tok.gClose 4,
   Tok.cls .space, Tok.starGreedy .space] ++
  lits "at" ++
  [Tok.cls .space, Tok.starGreedy .space,
   Tok.gOpen 5, Tok.cls .nonspace, Tok.starGreedy .nonspace, Tok.gClose 5]

/-- RE_WARN: `Model time\s+(\d+\.?\d*).*?\n.*?\*\*\*\s+(warning|note|error)
\s+(\w+)\s+\*\*\*\s+at label:\s+(\S+)` with DOTALL and IGNORECASE. -/
def reWarnToks : List Tok :=
  lits "Model time" ++
  [Tok.cls .space, Tok.starGreedy .space, Tok.numGroup 1,
   Tok.starLazy .dotAll, Tok.lit 10, Tok.starLazy .dotAll] ++
  lits "***" ++
  [Tok.cls .space, Tok.starGreedy .space,
   Tok.gOpen 2, Tok.alts [S "warning", S "note", S "error"], Tok.gClose 2,
   Tok.cls .space, Tok.starGreedy .space,
   Tok.gOpen 3, Tok.cls .word, Tok.starGreedy .word, Tok.gClose 3,
   Tok.cls .space, Tok.starGreedy .space] ++
  lits "***" ++
  [Tok.cls .space, Tok.starGreedy .space] ++
  lits "at label:" ++
  [Tok.cls .space, Tok.starGreedy .space,
   Tok.gOpen 4, Tok.cls .nonspace, Tok.starGreedy .nonspace, Tok.gClose 4]

/-- Whitespace stripped from both ends, as Python `float()` does to its
argument before parsing. -/
def stripWsB (l : List Nat) : List Nat :=
  ((l.dropWhile isSpaceB).reverse.dropWhile isSpaceB).reverse

/-- Digit-string value, most significant first. -/
def digitsVal (l : List Nat) : Nat := l.foldl (fun a b => a * 10 + (b - 48)) 0

/-- Exponent tail of a float token, after the `e`/`E`. -/
def pyExp (q : ℚ) (u : List Nat) : Option ℚ :=
  let p := match u with
    | 43 :: r => ((1 : Int), r)
    | 45 :: r => ((-1 : Int), r)
    | r => ((1 : Int), r)
  let ds := p.2.takeWhile isDigitB
  if ds.isEmpty || !(p.2.dropWhile isDigitB).isEmpty then none
  else some (q * (10 : ℚ) ^ (p.1 * (digitsVal ds : Int)))

/-- Unsigned body of a float token: digits, an optional dot with further
digits (at least one digit in all), and an optional exponent. -/
def pyBody (u : List Nat) : Option ℚ :=
  let d1 := u.takeWhile isDigitB
  match u.dropWhile isDigitB with
  | [] => if d1.isEmpty then none else some (digitsVal d1)
  | 46 :: r2 =>
    let d2 := r2.takeWhile isDigitB
    if d1.isEmpty && d2.isEmpty then none
    else
      let q : ℚ := (digitsVal d1 : ℚ) + (digitsVal d2 : ℚ) / (10 : ℚ) ^ d2.length
      match r2.dropWhile isDigitB with
      | [] => some q
      | 101 :: r4 => pyExp q r4
      | 69 :: r4 => pyExp q r4
      | _ => none
  | 101 :: r2 => if d1.isEmpty then none else pyExp (digitsVal d1) r2
  | 69 :: r2 => if d1.isEmpty then none else pyExp (digitsVal d1) r2
  | _ => none

/-- Python `float()` on a captured byte token, over exact rationals:
whitespace stripped, an optional sign, then the numeric body. `none`
models a raised ValueError. The float-specific spellings `inf`/`nan` and
digit-group underscores have no rational value and are outside this
model. -/
def pyFloat (v : List Nat) : Option ℚ :=
  match stripWsB v with
  | 43 :: u => pyBody u
  | 45 :: u => (pyBody u).map (fun q => -q)
  | u => pyBody u

/-- Bytes decode with `errors='ignore'`: the log's matched tokens are ASCII,
where utf-8 decoding keeps each byte's value and drops invalid (high)
bytes; multi-byte sequences are outside the model. -/
def decodeIg (l : List Nat) : List Nat := l.filter (fun b => b < 128)

/-- ASCII upper-casing, Python `str.upper()` on the decoded severity. -/
def upperB (l : List Nat) : List Nat :=
  l.map (fun b => if 97 ≤ b ∧ b ≤ 122 then b - 32 else b)

/-- Python `b[-n:]`. -/
def lastN (n : Nat) (l : List Nat) : List Nat := l.drop (l.length - n)

/-- Helper for the substring test: does `s` begin with `pat`? -/
def leadsWith : List Nat → List Nat → Bool
  | [], _ => true
  | _ :: _, [] => false
  | a :: as, b :: bs => a == b && leadsWith as bs

/-- Python `pat in s` on bytes: substring containment. -/
def containsSub (pat : List Nat) : List Nat → Bool
  | [] => pat.isEmpty
  | s@(_ :: rest) => leadsWith pat s || containsSub pat rest

/-- One row of `dq_data` or `dh_data`: `{'time': t, 'value': v, 'node': n}`. -/
structure ConvRec where
  time : ℚ
  value : ℚ
  node : List Nat
deriving DecidableEq

/-- One row of `warn_data` (with the description column `note` the source
attaches at step E; it is empty until then): `{'time', 'type', 'code',
'label'}` and then `'note'`. -/
structure WarnRec where
  time : ℚ
  wtype : List Nat
  code : List Nat
  label : List Nat
  note : List Nat
deriving DecidableEq

/-- The dict `extract_zzd_data` returns: dq and dh record lists, the warning
records, `start`/`end`, and `fail_t`/`fail_c`. -/
structure ParseResult where
  dq : List ConvRec
  dh : List ConvRec
  warnings : List WarnRec
  start : ℚ
  endT : ℚ
  fail_t : Option ℚ
  fail_c : Option (List Nat)
deriving DecidableEq

/-- The reference table WARNING_DESCRIPTIONS of the source (a Python dict
literal, embedded verbatim in source order), keys and values as byte sequences. -/
def WARNING_DESCRIPTIONS : List (List Nat × List Nat) := [
  (S "W2000", S "Poor model convergence"),
  (S "W2001", S "Conduits with variable x-section are not permitted"),
  (S "W2002", S "Conduits with variable bottom friction are not permitted"),
  (S "W2003", S "Conduits with variable top friction are not permitted"),
  (S "W2004", S "Conduits with variable friction forms are not permitted"),
  (S "W2005", S "Conduits with variable side friction are not permitted"),
  (S "W2008", S "Water level below invert"),
  (S "W2010", S "Poor interpolation u/s"),
  (S "W2012", S "Flow over side spills not calculated"),
  (S "W2013", S "Very small change in flow resulting from correction"),
  (S "W2014", S "Unit running dry"),
  (S "W2016", S "Steady file could not be opened"),
  (S "W2017", S "Extra sections need to be added by the user"),
  (S "W2018", S "Indeterminate reaches have been found"),
  (S "W2019", S "Water level rose beyond the max level of section data"),
  (S "W2020", S "Water level >3m above max level of section data"),
  (S "W2021", S "Solution found with reduced accuracy"),
  (S "W2023", S "Zero areas in Bernoulli Loss unit"),
  (S "W2024", S "Extra sections gave insufficient accuracy"),
  (S "W2025", S "Data error found in RNDSC gate"),
  (S "W2026", S "CONDUIT and RIVER units should not be directly connected"),
  (S "W2027", S "No rules currently valid for RULES unit"),
  (S "W2031", S "Reservoir units in network"),
  (S "W2032", S "Water level outside channel boundary"),
  (S "W2033", S "Zero area calculated at node"),
  (S "W2034", S "Overbank spill units in network"),
  (S "W2035", S "HT boundary at upstream end of reach not permitted"),
  (S "W2036", S "QH boundary at upstream end of reach not permitted"),
  (S "W2037", S "qt boundary at downstream end of reach not permitted"),
  (S "W2039", S "Split/join parameter mismatch"),
  (S "W2040", S "Split estimates are wrong at junction"),
  (S "W2042", S "Illegal tidal constituent"),
  (S "W2043", S "Decreasing cross section distance"),
  (S "W2044", S "Different values for Mannings n within one panel"),
  (S "W2045", S "Water level at or below reservoir invert"),
  (S "W2046", S "Lateral inflows set to zero"),
  (S "W2047", S "Non-rectangular control section with notional weir"),
  (S "W2048", S "Very small change in heads results in large change in flow"),
  (S "W2050", S "Ratio between upstream and downstream areas exceeds 2.0"),
  (S "W2051", S "Estimated theta value is very large"),
  (S "W2052", S "MSL is outside FSR range"),
  (S "W2053", S "Soil is outside FSR range"),
  (S "W2054", S "Urban fraction should not be > 0.808"),
  (S "W2055", S "RSMD is outside FSR range"),
  (S "W2056", S "CWI is outside expected range"),
  (S "W2057", S "Rainfall Profile duration issue"),
  (S "W2058", S "Model convergence criteria were not met"),
  (S "W2059", S "Catchment area is outside FSR range"),
  (S "W2060", S "Conveyance decreases"),
  (S "W2061", S "S1085 is outside FSR range"),
  (S "W2100", S "Invalid value given for modular limit"),
  (S "W2201", S "Friction law not specified correctly in bridge"),
  (S "W2202", S "Bridge calibration factor set to zero"),
  (S "W2203", S "Insignificant flow through arches at USBPR bridge"),
  (S "W2204", S "Bridge is surcharged"),
  (S "W2205", S "Extrapolating base curves"),
  (S "W2206", S "Extrapolating pier curves"),
  (S "W2207", S "Extrapolating pier sigma curves"),
  (S "W2208", S "Extrapolating skew curves"),
  (S "W2209", S "Failed to load convey.dll"),
  (S "W2211", S "Failed to free memory in CES dll"),
  (S "W2212", S "CES dll magic number error"),
  (S "W2213", S "CES dll version error"),
  (S "W2214", S "Failed to set 'Flood Modeller' in CES"),
  (S "W2215", S "Bad gauge data"),
  (S "W2216", S "Gauge limit incompatibility"),
  (S "W2217", S "No method file specified for gauge unit"),
  (S "W2229", S "Trash screen height is set to 0"),
  (S "W2235", S "Variable Percentage Runoff Flag error"),
  (S "W2236", S "Optimum number of internal calculation points exceeded"),
  (S "W2237", S "MUSK-RSEC data error"),
  (S "W2238", S "Panel has very small width"),
  (S "W2260", S "Culvert bend losses coefficient issue"),
  (S "W2261", S "Backflow encountered at culvert bend or loss unit"),
  (S "W2262", S "Backflow encountered CULVERT OUTLET unit"),
  (S "W2263", S "Backflow encountered at CULVERT INLET unit"),
  (S "W2264", S "Level below culvert invert"),
  (S "W2266", S "Level below culvert invert"),
  (S "W2267", S "No sub/supercritical depth could be found"),
  (S "W2268", S "Direct supercritical method cannot handle this configuration"),
  (S "W2271", S "Failed to find minimum of energy function"),
  (S "W2272", S "Energy equation failed to converge"),
  (S "W2273", S "Defaulting to critical depth"),
  (S "W2274", S "Bernoulli loss unit level/area issue"),
  (S "W2275", S "Two levels have zero upstream area"),
  (S "W2276", S "Water level set to adjacent lowest bed level"),
  (S "W2277", S "Last appearance of conduits message"),
  (S "W2278", S "Zero calibration coefficient"),
  (S "W2279", S "Reference velocity exceeds 3 m/s"),
  (S "W2280", S "Estimated theta value is negative"),
  (S "W2281", S "No flow possible with zero coefficient"),
  (S "W2282", S "Minimum/initial timestep has been changed"),
  (S "W2283", S "Conduit section has been reversed"),
  (S "W2286", S "Reservoir/Pond area is smaller than previous"),
  (S "W2287", S "Two levels have zero area"),
  (S "W2288", S "Initial water levels upstream not all equal"),
  (S "W2289", S "Discharge coefficient set to zero"),
  (S "W2290", S "Opening is zero - no flow possible"),
  (S "W2291", S "Initial water level higher than crest of SPILL"),
  (S "W2292", S "Failed to converge to normal depth"),
  (S "W2293", S "Linear interpolation with rainfall data not allowed"),
  (S "W2294", S "Crump, Flat-V weir not connected correctly"),
  (S "W2295", S "Seasonal PMPs extrapolated"),
  (S "W2296", S "Rule interpretation warning"),
  (S "W2297", S "Date/time from Tidal Boundary unit used"),
  (S "W2298", S "Data interval less than one minute"),
  (S "W2299", S "Storm duration not integer multiple of dt"),
  (S "W2300", S "ARF equation for short durations called"),
  (S "W2301", S "Adaptive timestepping parameter issue"),
  (S "W2302", S "Time to peak not integer multiple of data interval"),
  (S "W2313", S "Zero modular limit"),
  (S "W2314", S "Modular limit set to unity or greater"),
  (S "W2315", S "Negative loss coefficient entered"),
  (S "W2317", S "Downstream flow area constrained"),
  (S "W2318", S "Initial adaptive timestep not read from file"),
  (S "W2319", S "Downstream constraining factor not set"),
  (S "W2320", S "Reservoir updating unit not connected to reservoir"),
  (S "W2321", S "Conduit slot dimensions incorrect"),
  (S "W2322", S "Failed to read event data"),
  (S "W2323", S "Unrealistic density input"),
  (S "W2531", S "Cannot find upstream condition for supercritical integration"),
  (S "W2532", S "Model start time is NOT t=0"),
  (S "W2533", S "Volumes not calculated for Muskingum sections"),
  (S "W2534", S "Errors occurred opening/writing to file"),
  (S "W2535", S "c0 scaling factor input error"),
  (S "N3002", S "Very small change in heads results in large change in flow"),
  (S "N3003", S "Percentage runoff calculated as negative"),
  (S "N3006", S "End of backflow at CULVERT INLET unit"),
  (S "N3007", S "End of backflow at CULVERT OUTLET unit"),
  (S "N3010", S "Simplified method used"),
  (S "N3012", S "Zero flow beyond point"),
  (S "N3013", S "Transcritical point(s) occurred"),
  (S "N3014", S "EVENT DATA FILE READ FAILED"),
  (S "N3015", S "Simulation event date/time overrides Tidal Boundary"),
  (S "N3016", S "Tidal Boundary unit with no event date/time"),
  (S "N3017", S "Tidal boundary used with direct method"),
  (S "N3018", S "2D Input Data check completed"),
  (S "N3019", S "User-input PMF time to peak adjustment note"),
  (S "N3025", S "Minimum flow applied at boundary"),
  (S "N3026", S "Initial adaptive timestep read from input file"),
  (S "N3027", S "2d timestep read from tcf file"),
  (S "N3028", S "Data points omitted from deactivated section areas"),
  (S "N3029", S "Duplicated units found"),
  (S "E1003", S "Bernoulli loss - no. of data sets must not be > 30 or < 1"),
  (S "E1004", S "Data read error"),
  (S "E1005", S "Unit unacceptable as first data unit"),
  (S "E1006", S "No. of stage/gate opening datasets < 2"),
  (S "E1007", S "Maximum no of gates exceeded"),
  (S "E1008", S "Maximum number of nodes is exceeded"),
  (S "E1009", S "Maximum number of units is exceeded"),
  (S "E1011", S "Unidentified unit"),
  (S "E1013", S "The EGGFORM option is not yet available, try using a CIRCULAR conduit with a suitable diameter"),
  (S "E1014", S "Supercritical flow between 'label1' and 'label2'. You should use the option for dealing with Froude numbers greater than 1"),
  (S "E1017", S "Negative flow - the direct method cannot handle backflow"),
  (S "E1018", S "Maximum no. of iterations exceeded"),
  (S "E1019", S "No solution found in Direct Method"),
  (S "E1020", S "Water level exceeded maximum section data level dflood"),
  (S "E1022", S "Not a recognised type number / Error writing OTTA file"),
  (S "E1023", S "Generic ERROR - see zzd file / complementary error code"),
  (S "E1027", S "Value of rsmd should not be less than 10"),
  (S "E1028", S "Maximum number of unit hydrograph ordinates exceeded"),
  (S "E1029", S "Error - data interval too small for unit hydrograph calculation or Time to Peak"),
  (S "E1033", S "Incorrect percentage runoff code of 'x' in subroutine prcal"),
  (S "E1036", S "Storm return period of 'x' too small to estimate rainfall depth."),
  (S "E1038", S "Areal reduction factor equation very inaccurate for durations less than 0.5 hr"),
  (S "E1039", S "Water level below invert."),
  (S "E1042", S "HTBDY - No of data pairs must be > 1"),
  (S "E1044", S "Previous unit was not a RIVER or CONDUIT"),
  (S "E1045", S "It is not allowed to have interpolated sections here"),
  (S "E1046", S "You must have a RIVER or CONDUIT downstream of INTERPOLATED sections"),
  (S "E1051", S "Format error in numerical data. JUNCTION data error"),
  (S "E1056", S "The direct method cannot be used with automatic controllers"),
  (S "E1057", S "Inconsistencies found in node labels"),
  (S "E1065", S "Variable outside linearization range"),
  (S "E1066", S "Variable outside interpolation range"),
  (S "E1072", S "rn must be greater than 1"),
  (S "E1073", S "cd outside allowed range"),
  (S "E1074", S "cv outside allowed range"),
  (S "E1075", S "Weir breadth must be positive."),
  (S "E1079", S "Maximum no. of network iterations exceeded"),
  (S "E1080", S "Number of data points is less than 2."),
  (S "E1081", S "Number of data points is greater than maximum allowed."),
  (S "E1091", S "FULL ARCH CONDUIT. The height of the crown specified is too high."),
  (S "E1094", S "Reverse flows not valid in syphon spillways"),
  (S "E1095", S "Decreasing cross section distance found"),
  (S "E1096", S "Panel contains zero and non-zero Manning's n"),
  (S "E1097", S "Cross-section contains all zero Manning's n"),
  (S "E1098", S "Number of height points exceeds maximum"),
  (S "E1100", S "Model is diverging. No solution has been found with the current time step"),
  (S "E1105", S "Time-dependent data in unit doesn't cover the start time of the model duration"),
  (S "E1106", S "Time-dependent data in unit doesn't cover the start time of the model duration"),
  (S "E1108", S "Tolerance for the direct method cannot be negative"),
  (S "E1109", S "Tolerance for the direct method cannot be greater than 0.1"),
  (S "E1111", S "None of the labels in the initial conditions have been tagged."),
  (S "E1112", S "Number of labels in initial conditions does not match number in data file"),
  (S "E1113", S "Generic data read error"),
  (S "E1114", S "Data error in zzs file"),
  (S "E1115", S "Generic data read error"),
  (S "E1117", S "Data error. Lower Froude Number greater or equal to higher value"),
  (S "E1118", S "Error in reader"),
  (S "E1119", S "Previous unit was not a RIVER or CONDUIT"),
  (S "E1120", S "REPLICATE/INTERPOLATE must be preceded by a RIVER or REPLICATE with dx>0"),
  (S "E1121", S "There is a spill label assigned to the last river unit in a reach."),
  (S "E1123", S "Unit type may not be connected to reservoir at specified label"),
  (S "E1128", S "You must have at least two consecutive RIVERs or CONDUITs to form a unit."),
  (S "E1129", S "It is not possible to find a solution with the current time step"),
  (S "E1131", S "Water level outside channel boundary"),
  (S "E1133", S "Extra added sections gave insufficient accuracy"),
  (S "E1139", S "no. of stage/gate opening datasets > 4."),
  (S "E1159", S "Length of crest in direction of flow must be > 0.1 - rnweir data error"),
  (S "E1168", S "Unit not yet available with the direct method - run terminated"),
  (S "E1169", S "Pump is in stopped mode; This mode is incompatible with the direct method."),
  (S "E1179", S "Remote upstream control not yet available. For use with the direct method."),
  (S "E1184", S "Third label required for WATER3 option for remote control mode"),
  (S "E1185", S "Values given must be greater than zero"),
  (S "E1188", S "No gate opening given for MANUAL operation"),
  (S "E1189", S "No initial gate opening given for AUTO operation"),
  (S "E1195", S "Matrix structurally singular. iflag = -1"),
  (S "E1196", S "Matrix numerically singular. iflag = -2"),
  (S "E1197", S "Row or column index out of range. iflag = -12"),
  (S "E1198", S "Dir = 'x' reverse flow direction hn1 = 'y' hn2 = 'z' node = 'n'"),
  (S "E1199", S "Error in spill at line 'l'. bank chainage must increase for each data pair"),
  (S "E1200", S "Maximum gate opening MUST be less than radius plus height of pivot"),
  (S "E1201", S "Gate opening MUST be less than radius plus height of pivot"),
  (S "E1202", S "Gate radius MUST be greater than height of pivot"),
  (S "E1203", S "Number of data points in SPILL unit must be must be greater than 1"),
  (S "E1210", S "Negative flow specified at a Q:T boundary - this is not permitted"),
  (S "E1211", S "Perturbation matrix is singular"),
  (S "E1219", S "cv outside allowed range"),
  (S "E1221", S "rlimit outside allowed range"),
  (S "E1230", S "Suter pump - numerical data outside allowable range"),
  (S "E1234", S "Generic error - see zzd file for further information"),
  (S "E1237", S "SAAR must be positive for event rainfall calculation"),
  (S "E1238", S "Event Rainfall flag is expected to be OBSER, FEHER, FSRER, or PMFER"),
  (S "E1239", S "Positive non-zero value is expected for the OBSERVED event rainfall"),
  (S "E1241", S "Catchment Wetness Index flag is expected to be OBSCW, FSRCW or PMFCW"),
  (S "E1243", S "Percentage Runoff Flag is expected to be BSPR, FEHPR, FSRPR or F16PR"),
  (S "E1244", S "Error in OBSERVED percentage runoff, it must not be > 100.0"),
  (S "E1245", S "Error in OBSERVED percentage runoff, it must not be <0.0"),
  (S "E1246", S "Time to Peak Flag is expected to be OBSTP, FEHTP, F16TP, FSRTP or R124TP"),
  (S "E1247", S "Positive non-zero value is expected for the OBSERVED Time to Peak, TP"),
  (S "E1248", S "Positive non-zero value is expected for the Calibration factor of TP"),
  (S "E1249", S "Base Flow Flag is expected to be OBSBF or F16BF"),
  (S "E1250", S "Positive non-zero value is expected for the catchment area, carea"),
  (S "E1253", S "Unit Hydrograph Flag is expected to be OBSUH, FSRUH, UBRUH or SCSUH"),
  (S "E1255", S "Rainfall Profile Flag is expected to be OBSRP, WINPMP or SUMPMP"),
  (S "E1256", S "Number of rainfall values outside range"),
  (S "E1258", S "ERROR in calculated percentage runoff at subroutine prcal, it is > 100.0"),
  (S "E1262", S "Error in routine interp in fsrqt - value out of range"),
  (S "E1266", S "Calculated no of unit hydro. Ordinates is greater than max allowed"),
  (S "E1267", S "For SUMRP unequal return periods are unacceptable. This can, however, be forced by using the parameter FORCE."),
  (S "E1268", S "Invalid Velocity Flag specified"),
  (S "E1269", S "Power law constants cannot be negative"),
  (S "E1285", S "Reservoir/Pond level is lower than or the same as the previous level"),
  (S "E1301", S "No flow boundaries have been defined therefore direct steady method is not applicable"),
  (S "E1302", S "No head boundaries have been defined therefore direct steady method is not applicable"),
  (S "E1324", S "Number of q:h data pairs exceeds the maximum permitted"),
  (S "E1330", S "Efficiency values must be greater than zero and less than or equal to one"),
  (S "E1331", S "Optimal head and flow values must both be positive"),
  (S "E1332", S "Number of switch data sets must be > 1"),
  (S "E1333", S "Invalid switch type keyword"),
  (S "E1334", S "Unrecognised pump mode keyword"),
  (S "E1336", S "Missing control label for controller switch type"),
  (S "E1338", S "Time multiples must be positive"),
  (S "E1339", S "Unrecognised pump mode"),
  (S "E1340", S "Number of Suter points must be between 1 and 133"),
  (S "E1341", S "No corresponding pump mode given for MANUAL operation at model time"),
  (S "E1343", S "Number of head, flow, efficiency data sets must be between 1 and 50."),
  (S "E1344", S "Error reading data in datafile."),
  (S "E1345", S "Head, flow and efficiency cannot all be simultaneously greater than zero."),
  (S "E1346", S "Invalid number of switch data sets"),
  (S "E1347", S "Unknown switch type: type code"),
  (S "E1348", S "Unable to find control unit for controller mode"),
  (S "E1349", S "Unknown instruction code for logical switching"),
  (S "E1401", S "Skew angle of bridge > 45 ; Must be in range 0 < =angle < =45."),
  (S "E1402", S "Width of bridge< =0.0. Data error in bridge unit"),
  (S "E1403", S "Invalid bridge abutment code. Should be 1, 2 or 3. Data error in bridge attached to 'label1', 'label2'"),
  (S "E1404", S "Pier coefficient out of range. Must be >=0.0 and < =8.0. Data error in bridge"),
  (S "E1405", S "Invalid bridge pier description. 'x'(Number of piers), 'y' (type of shape of bridge soffit), 'z' (type of bridge pier cross sectional type). Data error in bridge attached to 'label1', 'label2'."),
  (S "E1406", S "Number of bridge piers >0 , with Width of bridge piers < =0."),
  (S "E1410", S "Too many culverts in bridge attached to 'label1','label2'."),
  (S "E1411", S "Culvert drowning coefficient must be <1. Data error in bridge attached to 'label1','label2'"),
  (S "E1412", S "Culvert invert level is greater than soffit level. Data error in bridge attached to 'label1','label2'."),
  (S "E1421", S "Number of arches < 0"),
  (S "E1422", S "Number of arches exceeds the maximum"),
  (S "E1423", S "USBPR Bridge error on arch data 'x' (number of arch) x coord of left side of arch must coincide with cross chainage point"),
  (S "E1431", S "Too many markers in bridge channel section"),
  (S "E1432", S "Left or Right markers wrong in bridge section."),
  (S "E1510", S "Unrecognised direction keyword keyword should be UPSTREAM or DOWNSTREAM"),
  (S "E1511", S "Invalid loss coefficient: Loss coefficient must be value between 0 and 10."),
  (S "E1512", S "Upstream section for a BEND/LOSS unit in upstream control must be a RIVER or CONDUIT unit."),
  (S "E1513", S "Invalid loss coefficient: Loss coefficient should be value between 0 and 1."),
  (S "E1514", S "Unit upstream of a CULVERT OUTLET unit must be RIVER or CONDUIT unit."),
  (S "E1515", S "Unrecognised conduit type code. Should be A or B"),
  (S "E1516", S "Value of unsubmerged inlet control loss coefficient should be between 0 and 1; current value is x"),
  (S "E1517", S "Value of exponent for inlet control should be between 0 and 3; current value is:x"),
  (S "E1518", S "Value of submerged inlet control loss coefficient should be between 0 and 0.1; current value is x."),
  (S "E1519", S "Value of submerged inlet control adjustment factor should be between 0 and 1; current value is x"),
  (S "E1520", S "Value of outlet control loss coefficient should be between 0 and 1; current value is x"),
  (S "E1521", S "Value of trash screen width should be greater than 0; current value is x"),
  (S "E1522", S "Value of trash screen bar proportion should be between 0 and 1; current value is x."),
  (S "E1523", S "Value of trash screen blockage ratio should be between 0 and 1; current value is x."),
  (S "E1524", S "Value of trash screen head loss coefficient should be greater than 0; current value is x"),
  (S "E1525", S "Unit downstream of a CULVERT INLET unit must be a RIVER or CONDUIT unit."),
  (S "E1526", S "Maximum number of trans-critical points exceeded"),
  (S "E1528", S "Junction at l1 appears to be neither a join nor a split"),
  (S "E1529", S "Unable to find unit number in list of river reaches"),
  (S "E1530", S "Internal error - invalid trans-critical point"),
  (S "E1532", S "Upstream/downstream nodes of unit are not rivers/conduits."),
  (S "E1533", S "Cannot find label"),
  (S "E1534", S "Save interval (or timestep) must be positive"),
  (S "E1536", S "Upstream/downstream/remote/constriction section label does not exist."),
  (S "E1537", S "Upstream and/or downstream river units at bridge not found"),
  (S "E1538", S "Culvert flow failed to converge"),
  (S "E1539", S "Perturbation failed"),
  (S "E1540", S "No nodes found"),
  (S "E1541", S "Country must be ENGLAND, IRELAND, SCOTLAND or WALES"),
  (S "E1542", S "Value of s1085 must be positive for time to peak calculation"),
  (S "E1543", S "Value of MSL/DPSBAR/DPLBAR must be positive for time to peak calculation, or PROPWET must be between 0 and 1."),
  (S "E1544", S "SOIL must be between 0 and 1.0"),
  (S "E1545", S "Time step must be positive"),
  (S "E1546", S "Urban fraction/extent cannot be <0 or> 1"),
  (S "E1547", S "Storm duration of x is less than or equal to zero"),
  (S "E1548", S "[Time] interpolation error"),
  (S "E1549", S "INTERPOLATE unit must have a positive chainage"),
  (S "E1550", S "A reach has more than 100 interpolated sections (split the reach using a RIVER)"),
  (S "E1551", S "Numb=0 in INTERPOLATE"),
  (S "E1552", S "Total chainage must be positive"),
  (S "E1555", S "Unit type may not be connected to junction"),
  (S "E1562", S "dx must be positive"),
  (S "E1564", S "X number of data points is less than 2"),
  (S "E1565", S "X number of data points greater than maximum"),
  (S "E1566", S "Lateral inflows cannot be used with MUSKINGUM units"),
  (S "E1567", S "Zero wave speed or chainage Ensure that the reach is not dry"),
  (S "E1568", S "Slope must be positive"),
  (S "E1569", S "Channel section data error. At least 2 section points and a positive slope are required for velocity calculation"),
  (S "E1570", S "Attempt to read results from before start of run. Start your run with structure in MANUAL mode"),
  (S "E1571", S "Error attempting to read earlier result"),
  (S "E1572", S "Unrecognised operation type"),
  (S "E1573", S "Weir discharge coefficient must be greater than 0"),
  (S "E1574", S "Surcharged discharge coefficient must be greater than 0"),
  (S "E1575", S "Pump bore area must be greater than 0"),
  (S "E1576", S "Soffit must be higher than invert"),
  (S "E1577", S "Bridge soffit is more than 10m above cross section. Please extend your section data or modify the arch dimensions"),
  (S "E1578", S "icount is zero - arch error"),
  (S "E1579", S "Conduit section should start with x=0 at invert centre line"),
  (S "E1580", S "Unrecognised time factor keyword"),
  (S "E1581", S "Flood Modeller has detected a different label length in the initial conditions file from the value in operation in the datafile. This is not allowed"),
  (S "E1582", S "Maximum number of pond data lines exceeded (max=50)"),
  (S "E1583", S "INTERPOLATE must be preceded by a RIVER or REPLICATE with a positive chainage"),
  (S "E1584", S "Non-channel unit found in the middle of a reach. Reach must end with dx = 0"),
  (S "E1585", S "Length of weir in direction of flow is more than 100 x width of crest. This is not acceptable"),
  (S "E1586", S "Crest length must be positive"),
  (S "E1587", S "Unknown controller operation mode"),
  (S "E1588", S "Unknown sluice gate operation mode"),
  (S "E1589", S "No time data available in switch data set for current model time"),
  (S "E1590", S "Unable to find controller label for controller mode"),
  (S "E1591", S "Unknown controller operation mode"),
  (S "E1592", S "Error in floodplain section at line n. Chainage must be positive for friction flow"),
  (S "E1593", S "First matrix element is zero"),
  (S "E1594", S "Xset points are not all distinct"),
  (S "E1595", S "Gate orientation must be FORWARD or REVERSE"),
  (S "E1596", S "ctc must be greater than 0"),
  (S "E1597", S "cgt must be greater than 0"),
  (S "E1598", S "crev must be greater than 0"),
  (S "E1599", S "dr must be greater than 0"),
  (S "E1600", S "Only one gate is allowed in gated weir"),
  (S "E1601", S "Gate height must be greater than zero"),
  (S "E1602", S "Gate crest higher than max. gate height"),
  (S "E1603", S "Crest is lower than sill"),
  (S "E1605", S "Unit version number n is not supported in this version of Flood Modeller"),
  (S "E1606", S "Negative breach width xm is invalid"),
  (S "E1607", S "Negative breach side slope x is invalid."),
  (S "E1608", S "Error in breach: unable to fit breach, check the breach and associated spill section"),
  (S "E1610", S "Invalid blockage proportion x. Proportion p must have 0.0 < = P <=1.0"),
  (S "E1611", S "Upstream/Downstream/Constriction unit of a blockage (connected or remote) must be RIVER, CONDUIT or BRIDGE unit."),
  (S "E1612", S "Invalid loss coefficient: Loss coefficient must be at least 0."),
  (S "E1613", S "OPEN pump operation is specified but parameters for OPEN operation are not set"),
  (S "E1614", S "Selected node l1 for OLD rules has been removed from the output list"),
  (S "E1620", S "Unit not supported in this version of Flood Modeller"),
  (S "E1621", S "Invalid lateral inflow weight factor (= x) entered for connecting unit"),
  (S "E1622", S "User defined weight factors do not sum to 1.0"),
  (S "E1623", S "Unrecognised connecting boundary node entered"),
  (S "E1624", S "Link to lateral inflow not recognised"),
  (S "E1625", S "Reservoir connected to reach - weighted lateral inflow"),
  (S "E1627", S "Connected Muskingum has zero reach length"),
  (S "E1628", S "Weight factor type not recognised"),
  (S "E1629", S "Muskingum section connected to area distributed lateral"),
  (S "E1630", S "This Muskingum type will not receive lateral inflows"),
  (S "E1631", S "Zero reach length river section connected to lateral inflow"),
  (S "E1640", S "Number of data pairs must be greater than zero"),
  (S "E1641", S "No input data types recognised"),
  (S "E1642", S "No data in l1 at line n before/after x hrs"),
  (S "E1643", S "2 data points with same time"),
  (S "E1644", S "Time values are not increasing"),
  (S "E1669", S "Zero or Negative slope encountered in Normal depth boundary This is not permitted"),
  (S "E1672", S "Remote label not found or not connected to a channel section"),
  (S "E1673", S "No valid path found from upstream to downstream slope extents"),
  (S "E1674", S "No section data specified or available for normal/critical depth boundary"),
  (S "E1675", S "Zero area or width in Critical depth boundary"),
  (S "E1676", S "No sign change detected in normal depth equation. Normal depth could not be calculated"),
  (S "E1678", S "Data error at line n. Dry lower depth greater or equal to dry higher depth"),
  (S "E1680", S "Maximum number 50 of lateral connections for quality run exceeded"),
  (S "E1681", S "Data error at line n. no RAD FILE tag found"),
  (S "E1682", S "Data error at line n. no GENERAL tag found"),
  (S "E1683", S "Failed CES dll function call to SetRoughnessFile"),
  (S "E1684", S "Failed CES dll function call to GetRoughnessLoadingErrors"),
  (S "E1685", S "Failed CES dll function call to AddSection"),
  (S "E1686", S "Failed CES dll function call to Populate Section for section id"),
  (S "E1687", S "Failed CES dll function call to Add Section Roughness for section id"),
  (S "E1688", S "CES dlls have not been initialised"),
  (S "E1689", S "Failed CES dll function call to Calculate Conveyance for section id"),
  (S "E1690", S "Failed CES dll function call to Get Depth Intervals"),
  (S "E1691", S "Failed CES dll function call to Get Eddy Viscosity"),
  (S "E1692", S "Failed CES dll function call to Get Min Depth"),
  (S "E1693", S "Failed CES dll function call to Get No Panels"),
  (S "E1694", S "Failed CES dll function call to GetRelaxation"),
  (S "E1695", S "Failed CES dll function call to Get Temperature"),
  (S "E1696", S "Failed CES dll function call to Get Max Iterations"),
  (S "E1697", S "Failed CES dll function call to Set Relaxation"),
  (S "E1698", S "Failed CES dll function call to Set Depth Intervals"),
  (S "E1699", S "Failed CES dll function call to SetEddyViscosity"),
  (S "E1700", S "Failed CES dll function call to Set Min Depth"),
  (S "E1701", S "Failed CES dll function call to Set No Panels"),
  (S "E1702", S "Failed CES dll function call to Set Max Iterations"),
  (S "E1703", S "Failed CES dll function call to SetTemperature"),
  (S "E1704", S "Failed CES dll function call to GetHytMultiplier"),
  (S "E1705", S "Failed CES dll function call to SetHytMultiplier"),
  (S "E1706", S "Failed function call to fn_requestoutputs_at_timestage for section"),
  (S "E1707", S "Failed function call to fn_get_isis_tables for section"),
  (S "E1708", S "Failed CES dll function call to FnGetMinMax_Output_Elevations for section id"),
  (S "E1709", S "Failed CES dll function call to fngetmaxarea for section"),
  (S "E1720", S "Too many substrings in rule"),
  (S "E1721", S "Parse error in rule"),
  (S "E1722", S "Logical storage capacity exceded in rule l1"),
  (S "E1723", S "Error in rule l1"),
  (S "E1724", S "Failed CES dll function call to SetConvTolerance"),
  (S "E1725", S "Failed CES dll function call to GetConvTolerance"),
  (S "E1726", S "Failed CES dll function call to SetConveyanceType"),
  (S "E1727", S "Rule l1 has already been defined. Note that only the first 10 characters of the name are significant."),
  (S "E1728", S "Rule ALL is not valid. It could be confused with the keyword ALL in the TIME RULE DATA SET."),
  (S "E1729", S "Fatal error in 2D solver"),
  (S "E1730", S "Indeterminate flow direction in qxbdy"),
  (S "E1800", S "Unknown bank type for section id"),
  (S "E1801", S "Sinuosity can only provided on a left bank in section id"),
  (S "E1802", S "Even number of bank markers required for section id"),
  (S "E1803", S "Put roughness chainage in ascending order for section id"),
  (S "E1804", S "Put section chainage in ascending order for section id"),
  (S "E1805", S "RO bank marker must follow LI for section id"),
  (S "E1806", S "RI bank marker must follow LO for section id"),
  (S "E1807", S "LI bank marker must follow RO for section id"),
  (S "E1808", S "LO bank marker must follow RI for section id"),
  (S "E1809", S "RS bank marker must follow LS for section id"),
  (S "E1810", S "LS bank marker must follow RS for section id"),
  (S "E1811", S "Date out of range in section"),
  (S "E1813", S "No section data to calculate conveyance for section id"),
  (S "E1814", S "No roughness data to calculate conveyance for section id"),
  (S "E1815", S "Roughness zone not found in roughness file for section id"),
  (S "E1818", S "[No message]"),
  (S "E1819", S "Data error at line X. failed to load roughness file."),
  (S "E1820", S "Non unique section name found for section id/replicate"),
  (S "E1821", S "Start date is out of the range specified in the roughness file for section id"),
  (S "E1822", S "Finish date is out of the range specified in the roughness file for section id"),
  (S "E1824", S "Section not found"),
  (S "E1825", S "At least two bank markers required for section id"),
  (S "E1827", S "Failed CES dll function call to FnAddInterpolate for interpolated section, cannot find upstream section for section id"),
  (S "E1828", S "Failed CES dll function call to FnAddInterpolate for interpolated section, cannot find downstream section for section id"),
  (S "E1830", S "Cannot find urban unit."),
  (S "E1831", S "This urban throughflow unit is not associated with an urban unit."),
  (S "E1832", S "The data store cannot accurately store the urban unit's number."),
  (S "E1900", S "Cannot allocate memory, status = n"),
  (S "E1926", S "One of many E1926 errors"),
  (S "E1999", S "One of many E1999 errors")
]

/-- Start-time step: `RE_START.search(zzd_bytes[:5000])`, then
`float(m.group(1))` on a match and `0.0` otherwise. -/
def startTime0 (bs : List Nat) : Option ℚ :=
  match search reStartToks (bs.take 5000) with
  | some (caps, _, _) => pyFloat (capGet caps 1)
  | none => some 0

/-- End-time step: `RE_END.search(zzd_bytes[-5000:])`. -/
def endTime0 (bs : List Nat) : Option ℚ :=
  match search reEndToks (lastN 5000 bs) with
  | some (caps, _, _) => pyFloat (capGet caps 1)
  | none => some 0

/-- One RE_CONV match's two appended rows (the DQ entry from groups 2 and 3,
the DH entry from groups 4 and 5, both at the group-1 time). `none` models
the ValueError a `float()` call may raise. -/
def convPair (caps : Caps) : Option (ConvRec × ConvRec) :=
  match pyFloat (capGet caps 1) with
  | none => none
  | some t =>
    match pyFloat (capGet caps 2) with
    | none => none
    | some v2 =>
      match pyFloat (capGet caps 4) with
      | none => none
      | some v4 =>
        some (⟨t, v2, decodeIg (capGet caps 3)⟩, ⟨t, v4, decodeIg (capGet caps 5)⟩)

/-- One RE_WARN match's appended row (time, upper-cased severity, code,
label; the note column is attached later). -/
def warnRec0 (caps : Caps) : Option WarnRec :=
  match pyFloat (capGet caps 1) with
  | none => none
  | some t =>
    some ⟨t, upperB (decodeIg (capGet caps 2)), decodeIg (capGet caps 3),
      decodeIg (capGet caps 4), []⟩

/-- The `last_err_t`/`last_err_c` tracking of the warning loop: the latest
ERROR row's time and code (last one wins). -/
def lastErrOf (warns : List WarnRec) : Option (ℚ × List Nat) :=
  warns.foldl (fun a w => if w.wtype = S "ERROR" then some (w.time, w.code) else a) none

/-- The first and last element of a row list's time column, the candidates
step D of the source collects from one list. -/
def firstLast : List ℚ → List ℚ
  | [] => []
  | x :: xs => [x, List.getLast (x :: xs) (by simp)]

/-- Python `min` over the collected timestamps (never applied to an empty
pool: the source guards with `if all_timestamps:`). -/
def pyMin : List ℚ → ℚ
  | [] => 0
  | x :: xs => xs.foldl min x

/-- Python `max` over the collected timestamps (same guard). -/
def pyMax : List ℚ → ℚ
  | [] => 0
  | x :: xs => xs.foldl max x

/-- Step D, time inference: when `start_time == 0.0 or end_time == 0.0`,
collect the first and last dq times and the first and last warning times;
when that pool is non-empty replace a zero start by its min and a zero end
by its max. -/
def inferBounds (s0 e0 : ℚ) (dqT wT : List ℚ) : ℚ × ℚ :=
  if s0 = 0 ∨ e0 = 0 then
    if (firstLast dqT ++ firstLast wT).isEmpty then (s0, e0)
    else (if s0 = 0 then pyMin (firstLast dqT ++ firstLast wT) else s0,
          if e0 = 0 then pyMax (firstLast dqT ++ firstLast wT) else e0)
  else (s0, e0)

/-- The forced valid duration: when `start_time >= end_time`, the end
becomes `1.0` for a zero start and `start_time + 1.0` otherwise. -/
def fixBounds (p : ℚ × ℚ) : ℚ × ℚ :=
  if p.1 ≥ p.2 then (if p.1 = 0 then (p.1, 1) else (p.1, p.1 + 1))
  else p

/-- Step E's description column: `df_w['code'].map(WARNING_DESCRIPTIONS)
.fillna("Unknown Warning")`, a pure per-row lookup with a fallback. The
table is a parameter so the read-only global state can be threaded
explicitly. -/
def attachNoteT (tbl : List (List Nat × List Nat)) (w : WarnRec) : WarnRec :=
  ⟨w.time, w.wtype, w.code, w.label, (List.lookup w.code tbl).getD (S "Unknown Warning")⟩

/-- The fatal marker of step C, `b"stopped in error"`. -/
def fatalMarker : List Nat := S "stopped in error"

/-- A loop appending one optional row per match: the first failing body
(a raised ValueError) aborts the whole extraction, as in the source. -/
def mapOpt (f : α → Option β) : List α → Option (List β)
  | [] => some []
  | x :: xs =>
    match f x with
    | none => none
    | some y =>
      match mapOpt f xs with
      | none => none
      | some ys => some (y :: ys)

/-- The pure tail of the extraction (steps C, D, E and the returned dict),
once the four loops' rows are in hand. -/
def assembleT (tbl : List (List Nat × List Nat)) (bs : List Nat) (s0 e0 : ℚ)
    (pairs : List (ConvRec × ConvRec)) (warns : List WarnRec) : ParseResult :=
  let dq := pairs.map Prod.fst
  let dh := pairs.map Prod.snd
  let lastErr := lastErrOf warns
  let isFatal := containsSub fatalMarker (lastN 2000 bs)
  let p := fixBounds (inferBounds s0 e0 (dq.map ConvRec.time) (warns.map WarnRec.time))
  { dq := dq
    dh := dh
    warnings := warns.map (attachNoteT tbl)
    start := p.1
    endT := p.2
    fail_t := if isFatal then lastErr.map Prod.fst else none
    fail_c := if isFatal then lastErr.map Prod.snd else none }

/-- The extraction engine `extract_zzd_data`, parameterized by the reference
table it reads. `none` models an uncaught exception (a `float()`
ValueError on a captured token). -/
def extractT (tbl : List (List Nat × List Nat)) (bs : List Nat) : Option ParseResult :=
  match startTime0 bs with
  | none => none
  | some s0 =>
    match endTime0 bs with
    | none => none
    | some e0 =>
      match mapOpt convPair (finditer reConvToks bs) with
      | none => none
      | some pairs =>
        match mapOpt warnRec0 (finditer reWarnToks bs) with
        | none => none
        | some warns => some (assembleT tbl bs s0 e0 pairs warns)

/-- The source's `extract_zzd_data`, reading the module-level table. -/
def extract_zzd_data (bs : List Nat) : Option ParseResult :=
  extractT WARNING_DESCRIPTIONS bs

/-- One call of `extract_zzd_data` together with the process state it can
see: the call returns its result and the table state it leaves behind
(the source only ever reads the table). -/
def extractCall (tbl : List (List Nat × List Nat)) (bs : List Nat) :
    Option ParseResult × List (List Nat × List Nat) :=
  (extractT tbl bs, tbl)

/-! Helper lemmas: association-list lookup, digit-shaped tokens, and the
byte-level facts the matcher lemmas need. -/

/-- A token has the shape `\d+\.?\d*`: a non-empty digit run, optionally a
dot and a further digit run. This is the shape `numGroup` captures. -/
def digitShapeB (v : List Nat) : Bool :=
  !(v.takeWhile isDigitB).isEmpty &&
  (match v.dropWhile isDigitB with
   | [] => true
   | 46 :: fs => fs.all isDigitB
   | _ => false)

theorem lookup_mem {α β : Type} [BEq α] [LawfulBEq α] {l : List (α × β)} {k : α} {v : β}
    (h : List.lookup k l = some v) : (k, v) ∈ l := by
  induction l with
  | nil => simp [List.lookup] at h
  | cons p t ih =>
    rw [List.lookup] at h
    by_cases hk : k == p.1
    · simp [hk] at h
      have : k = p.1 := beq_iff_eq.mp hk
      rw [List.mem_cons]
      left
      rw [← h]
      exact Prod.ext this rfl
    · simp [hk] at h
      exact List.mem_cons_of_mem _ (ih h)

theorem mem_lookup_isSome {α β : Type} [BEq α] [LawfulBEq α] {l : List (α × β)} {k : α} {v : β}
    (h : (k, v) ∈ l) : (List.lookup k l).isSome := by
  induction l with
  | nil => simp at h
  | cons p t ih =>
    rw [List.lookup]
    rcases List.mem_cons.mp h with h1 | h1
    · simp [← h1]
    · by_cases hk : k == p.1 <;> simp [hk, ih h1]

theorem dropWhile_of_all_false {p : Nat → Bool} {l : List Nat}
    (h : ∀ b ∈ l, p b = false) : l.dropWhile p = l := by
  cases l with
  | nil => rfl
  | cons a t => simp [List.dropWhile_cons, h a (List.mem_cons_self a t)]

theorem takeWhile_all_append {p : Nat → Bool} {ds rest : List Nat}
    (h : ∀ b ∈ ds, p b = true) (hr : ∀ b, rest.head? = some b → p b = false) :
    (ds ++ rest).takeWhile p = ds ∧ (ds ++ rest).dropWhile p = rest := by
  induction ds with
  | nil =>
    cases rest with
    | nil => exact ⟨rfl, rfl⟩
    | cons a t =>
      simp [List.takeWhile_cons, List.dropWhile_cons, hr a rfl]
  | cons a t ih =>
    have ha : p a = true := h a (List.mem_cons_self a t)
    have iht := ih (fun b hb => h b (List.mem_cons_of_mem a hb))
    simp [List.takeWhile_cons, List.dropWhile_cons, ha, iht.1, iht.2]

theorem digitShape_plain {ds : List Nat} (hne : ds ≠ [])
    (h : ∀ b ∈ ds, isDigitB b = true) : digitShapeB ds = true := by
  unfold digitShapeB
  rw [List.takeWhile_eq_self_iff.mpr h, List.dropWhile_eq_nil_iff.mpr h]
  simp [hne]

theorem digitShape_dotted {ds fs : List Nat} (hne : ds ≠ [])
    (h : ∀ b ∈ ds, isDigitB b = true) (hf : ∀ b ∈ fs, isDigitB b = true) :
    digitShapeB (ds ++ 46 :: fs) = true := by
  have hd := @takeWhile_all_append isDigitB ds (46 :: fs) h (by simp [isDigitB])
  unfold digitShapeB
  rw [hd.1, hd.2]
  simp only [List.all_eq_true, Bool.and_eq_true, List.isEmpty_eq_true]
  exact ⟨by simp [hne], hf⟩

theorem takeWhile_ne_nil_of_head {b : Nat} {t : List Nat} {p : Nat → Bool}
    (h : p b = true) : (b :: t).takeWhile p ≠ [] := by
  simp [List.takeWhile_cons, h]

theorem mtchF_sublist : ∀ (fuel : Nat) (toks : List Tok) (s : List Nat)
    (opens caps c' : Caps) (r : List Nat),
    mtchF fuel toks s opens caps = some (c', r) → caps.Sublist c' := by
  intro fuel
  induction fuel with
  | zero => intro _ _ _ _ _ _ h; simp [mtchF] at h
  | succ n ih =>
    intro toks s opens caps c' r h
    cases toks with
    | nil =>
      simp only [mtchF, Option.some.injEq, Prod.mk.injEq] at h
      rw [← h.1]
    | cons tok rest =>
      cases tok <;> simp only [mtchF] at h <;>
        repeat
          first
          | exact ih _ _ _ _ _ _ h
          | exact ih _ _ _ _ _ _ h.2
          | exact ((List.Sublist.refl caps).cons _).trans (ih _ _ _ _ _ _ h)
          | split at h
          | (rename_i heq
             rw [Option.some.injEq] at h
             rw [h] at heq
             exact ih _ _ _ _ _ _ heq)
          | (rename_i heq
             rw [h] at heq
             exact ih _ _ _ _ _ _ heq)
          | simp at h

theorem mtchF_shape : ∀ (fuel : Nat) (toks : List Tok) (s : List Nat)
    (opens caps c' : Caps) (r : List Nat),
    (∀ t ∈ toks, t ≠ Tok.gClose 1) →
    mtchF fuel toks s opens caps = some (c', r) →
    (∀ v, (1, v) ∈ caps → digitShapeB v = true) →
    ∀ v, (1, v) ∈ c' → digitShapeB v = true := by
  intro fuel
  induction fuel with
  | zero => intro _ _ _ _ _ _ _ h; simp [mtchF] at h
  | succ n ih =>
    intro toks s opens caps c' r hw h hc
    cases toks with
    | nil =>
      simp only [mtchF, Option.some.injEq, Prod.mk.injEq] at h
      exact h.1 ▸ hc
    | cons tok rest =>
      have hwr : ∀ t ∈ rest, t ≠ Tok.gClose 1 :=
        fun t ht => hw t (List.mem_cons_of_mem _ ht)
      cases tok with
      | gClose i =>
        simp only [mtchF] at h
        split at h
        · rename_i sv hsv
          have hne : i ≠ 1 := by
            have h0 := hw (Tok.gClose i) (List.mem_cons_self _ _)
            intro hi
            rw [hi] at h0
            exact h0 rfl
          refine ih _ _ _ _ _ _ hwr h ?_
          intro v hv
          rcases List.mem_cons.mp hv with h1 | h1
          · exfalso
            exact hne (((Prod.mk.injEq _ _ _ _).mp h1).1).symm
          · exact hc v h1
        · simp at h
      | numGroup i =>
        simp only [mtchF] at h
        split at h
        · simp at h
        · rename_i c tail
          split at h
          · rename_i hdig
            split at h
            · rename_i s2 hdrop
              refine ih _ _ _ _ _ _ hwr h ?_
              intro v hv
              rcases List.mem_cons.mp hv with h1 | h1
              · have hv2 := ((Prod.mk.injEq _ _ _ _).mp h1).2
                rw [hv2]
                refine digitShape_dotted (takeWhile_ne_nil_of_head hdig)
                  (fun b hb => List.mem_takeWhile_imp hb)
                  (fun b hb => List.mem_takeWhile_imp hb)
              · exact hc v h1
            · rename_i s1 hdrop
              refine ih _ _ _ _ _ _ hwr h ?_
              intro v hv
              rcases List.mem_cons.mp hv with h1 | h1
              · have hv2 := ((Prod.mk.injEq _ _ _ _).mp h1).2
                rw [hv2]
                refine digitShape_plain (takeWhile_ne_nil_of_head hdig)
                  (fun b hb => List.mem_takeWhile_imp hb)
              · exact hc v h1
          · simp at h
      | alts cs =>
        simp only [mtchF] at h
        split at h
        · simp at h
        · rename_i c cs1
          have hw2 : ∀ t ∈ Tok.alts cs1 :: rest, t ≠ Tok.gClose 1 := by
            intro t ht
            rcases List.mem_cons.mp ht with h1 | h1
            · simp [h1]
            · exact hwr t h1
          split at h
          · split at h
            · rename_i heq
              rw [Option.some.injEq] at h
              rw [h] at heq
              exact ih _ _ _ _ _ _ hwr heq hc
            · exact ih _ _ _ _ _ _ hw2 h hc
          · exact ih _ _ _ _ _ _ hw2 h hc
      | lit b =>
        simp only [mtchF] at h
        repeat
          first
          | exact ih _ _ _ _ _ _ hwr h hc
          | split at h
          | simp at h
      | cls cc =>
        simp only [mtchF] at h
        repeat
          first
          | exact ih _ _ _ _ _ _ hwr h hc
          | split at h
          | simp at h
      | gOpen i =>
        simp only [mtchF] at h
        exact ih _ _ _ _ _ _ hwr h hc
      | starLazy cc =>
        simp only [mtchF] at h
        split at h
        · rename_i heq
          rw [Option.some.injEq] at h
          rw [h] at heq
          exact ih _ _ _ _ _ _ hwr heq hc
        · repeat
            first
            | exact ih _ _ _ _ _ _ hw h hc
            | split at h
            | simp at h
      | starGreedy cc =>
        simp only [mtchF] at h
        repeat
          first
          | exact ih _ _ _ _ _ _ hwr h hc
          | split at h
          | (rename_i heq
             rw [Option.some.injEq] at h
             rw [h] at heq
             exact ih _ _ _ _ _ _ hw heq hc)
          | simp at h
      | optLit b =>
        simp only [mtchF] at h
        repeat
          first
          | exact ih _ _ _ _ _ _ hwr h hc
          | split at h
          | (rename_i heq
             rw [Option.some.injEq] at h
             rw [h] at heq
             exact ih _ _ _ _ _ _ hwr heq hc)
          | simp at h

theorem mtchF_present : ∀ (fuel : Nat) (toks : List Tok) (s : List Nat)
    (opens caps c' : Caps) (r : List Nat),
    Tok.numGroup 1 ∈ toks →
    mtchF fuel toks s opens caps = some (c', r) →
    ∃ v, (1, v) ∈ c' := by
  intro fuel
  induction fuel with
  | zero => intro _ _ _ _ _ _ _ h; simp [mtchF] at h
  | succ n ih =>
    intro toks s opens caps c' r hm h
    cases toks with
    | nil => simp at hm
    | cons tok rest =>
      rcases List.mem_cons.mp hm with h1 | h1
      · rw [← h1] at h
        simp only [mtchF] at h
        split at h
        · simp at h
        · split at h
          · split at h
            · rename_i hdig s2 hdrop
              refine ⟨_, (mtchF_sublist _ _ _ _ _ _ _ h).subset (List.mem_cons_self _ _)⟩
            · rename_i hdig s1 hdrop
              refine ⟨_, (mtchF_sublist _ _ _ _ _ _ _ h).subset (List.mem_cons_self _ _)⟩
          · simp at h
      · cases tok with
        | gClose i =>
          simp only [mtchF] at h
          split at h
          · exact ih _ _ _ _ _ _ h1 h
          · simp at h
        | numGroup i =>
          simp only [mtchF] at h
          split at h
          · simp at h
          · split at h
            · split at h
              · exact ih _ _ _ _ _ _ h1 h
              · exact ih _ _ _ _ _ _ h1 h
            · simp at h
        | alts cs =>
          simp only [mtchF] at h
          have h2 : Tok.numGroup 1 ∈ Tok.alts cs.tail :: rest := List.mem_cons_of_mem _ h1
          repeat
            first
            | exact ih _ _ _ _ _ _ h1 h
            | split at h
            | (rename_i heq
               rw [Option.some.injEq] at h
               rw [h] at heq
               exact ih _ _ _ _ _ _ h1 heq)
            | (exact ih _ _ _ _ _ _ (List.mem_cons_of_mem _ h1) h)
            | simp at h
        | lit b =>
          simp only [mtchF] at h
          repeat
            first
            | exact ih _ _ _ _ _ _ h1 h
            | split at h
            | simp at h
        | cls cc =>
          simp only [mtchF] at h
          repeat
            first
            | exact ih _ _ _ _ _ _ h1 h
            | split at h
            | simp at h
        | gOpen i =>
          simp only [mtchF] at h
          exact ih _ _ _ _ _ _ h1 h
        | starLazy cc =>
          simp only [mtchF] at h
          repeat
            first
            | exact ih _ _ _ _ _ _ h1 h
            | exact ih _ _ _ _ _ _ hm h
            | split at h
            | (rename_i heq
               rw [Option.some.injEq] at h
               rw [h] at heq
               exact ih _ _ _ _ _ _ h1 heq)
            | simp at h
        | starGreedy cc =>
          simp only [mtchF] at h
          repeat
            first
            | exact ih _ _ _ _ _ _ h1 h
            | split at h
            | (rename_i heq
               rw [Option.some.injEq] at h
               rw [h] at heq
               exact ih _ _ _ _ _ _ hm heq)
            | simp at h
        | optLit b =>
          simp only [mtchF] at h
          repeat
            first
            | exact ih _ _ _ _ _ _ h1 h
            | split at h
            | (rename_i heq
               rw [Option.some.injEq] at h
               rw [h] at heq
               exact ih _ _ _ _ _ _ h1 heq)
            | simp at h

theorem search_mtch {toks : List Tok} : ∀ {s : List Nat} {caps : Caps}
    {rest : List Nat} {b : Bool},
    search toks s = some (caps, rest, b) →
    ∃ s0, mtch toks s0 [] [] = some (caps, rest) := by
  intro s
  induction s with
  | nil =>
    intro caps rest b h
    rw [search] at h
    split at h
    · rename_i heq
      simp only [Option.some.injEq, Prod.mk.injEq] at h
      exact ⟨[], by rw [heq, h.1, h.2.1]⟩
    · simp at h
  | cons a s1 ih =>
    intro caps rest b h
    rw [search] at h
    split at h
    · rename_i heq
      simp only [Option.some.injEq, Prod.mk.injEq] at h
      exact ⟨a :: s1, by rw [heq, h.1, h.2.1]⟩
    · exact ih h

theorem finditerF_mtch {toks : List Tok} : ∀ (fuel : Nat) (s : List Nat) (caps : Caps),
    caps ∈ finditerF fuel toks s →
    ∃ s0 rest, mtch toks s0 [] [] = some (caps, rest) := by
  intro fuel
  induction fuel with
  | zero => intro s caps hc; simp [finditerF] at hc
  | succ n ih =>
    intro s caps hc
    rw [finditerF] at hc
    split at hc
    · simp at hc
    · rename_i caps1 rest isEmp heq
      split at hc
      · split at hc
        · rw [List.mem_singleton] at hc
          obtain ⟨s0, hm⟩ := search_mtch heq
          exact ⟨s0, _, by rw [← hc] at hm; exact hm⟩
        · rcases List.mem_cons.mp hc with h1 | h1
          · obtain ⟨s0, hm⟩ := search_mtch heq
            exact ⟨s0, _, by rw [← h1] at hm; exact hm⟩
          · exact ih _ _ h1
      · rcases List.mem_cons.mp hc with h1 | h1
        · obtain ⟨s0, hm⟩ := search_mtch heq
          exact ⟨s0, _, by rw [← h1] at hm; exact hm⟩
        · exact ih _ _ h1

theorem mtch_cap1 {toks : List Tok} {s0 : List Nat} {caps : Caps} {rest : List Nat}
    (hw : ∀ t ∈ toks, t ≠ Tok.gClose 1) (hm : Tok.numGroup 1 ∈ toks)
    (h : mtch toks s0 [] [] = some (caps, rest)) :
    digitShapeB (capGet caps 1) = true := by
  unfold mtch at h
  obtain ⟨v, hv⟩ := mtchF_present _ _ _ _ _ _ _ hm h
  have hshape := mtchF_shape _ _ _ _ _ _ _ hw h (by simp)
  obtain ⟨w, hw1⟩ := Option.isSome_iff_exists.mp (mem_lookup_isSome hv)
  unfold capGet
  rw [hw1]
  exact hshape w (lookup_mem hw1)

theorem digit_not_space {b : Nat} (h : isDigitB b = true) : isSpaceB b = false := by
  simp only [isDigitB, Bool.and_eq_true, decide_eq_true_eq] at h
  simp only [isSpaceB]
  simp only [Bool.or_eq_false_iff, beq_eq_false_iff_ne]
  omega

theorem stripWs_of_nospace {v : List Nat} (h : ∀ b ∈ v, isSpaceB b = false) :
    stripWsB v = v := by
  unfold stripWsB
  rw [dropWhile_of_all_false h,
      dropWhile_of_all_false (fun b hb => h b (List.mem_reverse.mp hb)),
      List.reverse_reverse]

theorem digitShape_decomp {v : List Nat} (h : digitShapeB v = true) :
    ∃ ds rest, v = ds ++ rest ∧ ds ≠ [] ∧ (∀ b ∈ ds, isDigitB b = true) ∧
      (rest = [] ∨ ∃ fs, rest = 46 :: fs ∧ ∀ b ∈ fs, isDigitB b = true) := by
  unfold digitShapeB at h
  rw [Bool.and_eq_true] at h
  refine ⟨v.takeWhile isDigitB, v.dropWhile isDigitB,
    (List.takeWhile_append_dropWhile _ _).symm, ?_, fun b hb => List.mem_takeWhile_imp hb, ?_⟩
  · intro hnil
    rw [hnil] at h
    simp at h
  · have h2 := h.2
    split at h2
    · left; assumption
    · right
      rename_i fs heq
      exact ⟨fs, heq, fun b hb => by
        have := List.all_eq_true.mp h2 b hb
        simpa using this⟩
    · simp at h2

theorem pyFloat_of_shape {v : List Nat} (h : digitShapeB v = true) :
    ∃ q, pyFloat v = some q ∧ 0 ≤ q := by
  obtain ⟨ds, rest, hv, hne, hdig, hrest⟩ := digitShape_decomp h
  have hnospace : ∀ b ∈ v, isSpaceB b = false := by
    intro b hb
    rw [hv] at hb
    rcases List.mem_append.mp hb with h1 | h1
    · exact digit_not_space (hdig b h1)
    · rcases hrest with h2 | ⟨fs, h2, hfs⟩
      · rw [h2] at h1; simp at h1
      · rw [h2] at h1
        rcases List.mem_cons.mp h1 with h3 | h3
        · rw [h3]; decide
        · exact digit_not_space (hfs b h3)
  have hheadr : ∀ b, rest.head? = some b → isDigitB b = false := by
    intro b hb
    rcases hrest with h2 | ⟨fs, h2, hfs⟩
    · subst h2; simp at hb
    · subst h2
      simp only [List.head?_cons, Option.some.injEq] at hb
      subst hb; decide
  have hrw := @takeWhile_all_append isDigitB ds rest hdig hheadr
  obtain ⟨c, ds1, hds⟩ : ∃ c ds1, ds = c :: ds1 := by
    cases ds with
    | nil => exact absurd rfl hne
    | cons c t => exact ⟨c, t, rfl⟩
  have hcdig : isDigitB c = true := hdig c (by rw [hds]; exact List.mem_cons_self _ _)
  have hstrip : stripWsB v = v := stripWs_of_nospace hnospace
  have hvhead : v = c :: (ds1 ++ rest) := by rw [hv, hds]; rfl
  have hc43 : c ≠ 43 := by
    intro hc; rw [hc] at hcdig; simp [isDigitB] at hcdig
  have hc45 : c ≠ 45 := by
    intro hc; rw [hc] at hcdig; simp [isDigitB] at hcdig
  have hpf : pyFloat v = pyBody v := by
    unfold pyFloat
    rw [hstrip]
    split
    · exfalso
      exact hc43 (by injection hvhead with h1 _; exact h1.symm)
    · exfalso
      exact hc45 (by injection hvhead with h1 _; exact h1.symm)
    · rfl
  rcases hrest with h2 | ⟨fs, h2, hfs⟩
  · refine ⟨digitsVal ds, ?_, Nat.cast_nonneg _⟩
    subst hv
    subst h2
    rw [hpf]
    unfold pyBody
    simp only [List.append_nil] at hrw ⊢
    rw [hrw.1, hrw.2]
    simp [hne]
  · refine ⟨(digitsVal ds : ℚ) + (digitsVal fs : ℚ) / (10 : ℚ) ^ fs.length, ?_, ?_⟩
    · subst hv
      subst h2
      rw [hpf]
      unfold pyBody
      rw [hrw.1, hrw.2]
      have hfs1 : fs.takeWhile isDigitB = fs := List.takeWhile_eq_self_iff.mpr hfs
      have hfs2 : fs.dropWhile isDigitB = [] := List.dropWhile_eq_nil_iff.mpr hfs
      simp only [hfs1, hfs2]
      simp [hne]
    · have h10 : (0 : ℚ) ≤ (10 : ℚ) ^ fs.length := by positivity
      exact add_nonneg (Nat.cast_nonneg _) (div_nonneg (Nat.cast_nonneg _) h10)

theorem mapOpt_mem {α β : Type} {f : α → Option β} : ∀ {l : List α} {ys : List β},
    mapOpt f l = some ys → ∀ y ∈ ys, ∃ x ∈ l, f x = some y := by
  intro l
  induction l with
  | nil =>
    intro ys h y hy
    simp only [mapOpt, Option.some.injEq] at h
    rw [← h] at hy
    simp at hy
  | cons a t ih =>
    intro ys h y hy
    rw [mapOpt] at h
    split at h
    · simp at h
    · rename_i b heqb
      split at h
      · simp at h
      · rename_i bs heqbs
        rw [Option.some.injEq] at h
        rw [← h] at hy
        rcases List.mem_cons.mp hy with h1 | h1
        · exact ⟨a, List.mem_cons_self _ _, by rw [heqb, h1]⟩
        · obtain ⟨x, hx1, hx2⟩ := ih heqbs y h1
          exact ⟨x, List.mem_cons_of_mem _ hx1, hx2⟩

theorem mapOpt_isSome {α β : Type} {f : α → Option β} : ∀ {l : List α},
    (∀ x ∈ l, (f x).isSome) → (mapOpt f l).isSome := by
  intro l
  induction l with
  | nil => intro _; simp [mapOpt]
  | cons a t ih =>
    intro h
    rw [mapOpt]
    obtain ⟨b, hb⟩ := Option.isSome_iff_exists.mp (h a (List.mem_cons_self _ _))
    rw [hb]
    obtain ⟨bs, hbs⟩ :=
      Option.isSome_iff_exists.mp (ih (fun x hx => h x (List.mem_cons_of_mem _ hx)))
    rw [hbs]
    rfl

theorem extractT_some_iff {tbl : List (List Nat × List Nat)} {bs : List Nat}
    {r : ParseResult} :
    extractT tbl bs = some r ↔
    ∃ s0 e0 pairs warns,
      startTime0 bs = some s0 ∧ endTime0 bs = some e0 ∧
      mapOpt convPair (finditer reConvToks bs) = some pairs ∧
      mapOpt warnRec0 (finditer reWarnToks bs) = some warns ∧
      r = assembleT tbl bs s0 e0 pairs warns := by
  constructor
  · intro h
    unfold extractT at h
    split at h
    · simp at h
    · rename_i s0 hs0
      split at h
      · simp at h
      · rename_i e0 he0
        split at h
        · simp at h
        · rename_i pairs hp
          split at h
          · simp at h
          · rename_i warns hwn
            rw [Option.some.injEq] at h
            exact ⟨s0, e0, pairs, warns, hs0, he0, hp, hwn, h.symm⟩
  · rintro ⟨s0, e0, pairs, warns, hs0, he0, hp, hwn, hr⟩
    unfold extractT
    rw [hs0, he0, hp, hwn, hr]

theorem reConv_noClose1 : ∀ t ∈ reConvToks, t ≠ Tok.gClose 1 := by decide

theorem reConv_hasNum : Tok.numGroup 1 ∈ reConvToks := by decide

theorem reWarn_noClose1 : ∀ t ∈ reWarnToks, t ≠ Tok.gClose 1 := by decide

theorem reWarn_hasNum : Tok.numGroup 1 ∈ reWarnToks := by decide

theorem reStart_noClose1 : ∀ t ∈ reStartToks, t ≠ Tok.gClose 1 := by decide

theorem reStart_hasNum : Tok.numGroup 1 ∈ reStartToks := by decide

theorem reEnd_noClose1 : ∀ t ∈ reEndToks, t ≠ Tok.gClose 1 := by decide

theorem reEnd_hasNum : Tok.numGroup 1 ∈ reEndToks := by decide

theorem finditer_cap1 {toks : List Tok} {bs : List Nat} {caps : Caps}
    (hw : ∀ t ∈ toks, t ≠ Tok.gClose 1) (hm : Tok.numGroup 1 ∈ toks)
    (hc : caps ∈ finditer toks bs) : digitShapeB (capGet caps 1) = true := by
  obtain ⟨s0, rest, hmt⟩ := finditerF_mtch _ _ _ hc
  exact mtch_cap1 hw hm hmt

theorem search_cap1 {toks : List Tok} {bs rest : List Nat} {caps : Caps} {b : Bool}
    (hw : ∀ t ∈ toks, t ≠ Tok.gClose 1) (hm : Tok.numGroup 1 ∈ toks)
    (hc : search toks bs = some (caps, rest, b)) :
    digitShapeB (capGet caps 1) = true := by
  obtain ⟨s0, hmt⟩ := search_mtch hc
  exact mtch_cap1 hw hm hmt

theorem startTime0_spec (bs : List Nat) : ∃ q, startTime0 bs = some q ∧ 0 ≤ q := by
  unfold startTime0
  split
  · rename_i caps rest b heq
    exact pyFloat_of_shape (search_cap1 reStart_noClose1 reStart_hasNum heq)
  · exact ⟨0, rfl, le_refl 0⟩

theorem endTime0_spec (bs : List Nat) : ∃ q, endTime0 bs = some q ∧ 0 ≤ q := by
  unfold endTime0
  split
  · rename_i caps rest b heq
    exact pyFloat_of_shape (search_cap1 reEnd_noClose1 reEnd_hasNum heq)
  · exact ⟨0, rfl, le_refl 0⟩

theorem convPair_time {caps : Caps} {pr : ConvRec × ConvRec}
    (h : convPair caps = some pr) :
    pyFloat (capGet caps 1) = some pr.1.time ∧ pr.2.time = pr.1.time := by
  unfold convPair at h
  split at h
  · simp at h
  · rename_i t ht
    split at h
    · simp at h
    · split at h
      · simp at h
      · rw [Option.some.injEq] at h
        rw [← h]
        exact ⟨ht, rfl⟩

theorem warnRec0_time {caps : Caps} {w : WarnRec}
    (h : warnRec0 caps = some w) : pyFloat (capGet caps 1) = some w.time := by
  unfold warnRec0 at h
  split at h
  · simp at h
  · rename_i t ht
    rw [Option.some.injEq] at h
    rw [← h]
    exact ht

theorem getLast?_cons_cases {α : Type} (a : α) (l : List α) :
    (a :: l).getLast? = match l.getLast? with | some x => some x | none => some a := by
  cases l with
  | nil => rfl
  | cons b t =>
    rw [List.getLast?_cons_cons]
    cases h : (b :: t).getLast? with
    | none =>
      exfalso
      rw [List.getLast?_eq_none_iff] at h
      simp at h
    | some x => rfl

theorem lastErr_foldl (warns : List WarnRec) : ∀ acc : Option (ℚ × List Nat),
    warns.foldl (fun a w => if w.wtype = S "ERROR" then some (w.time, w.code) else a) acc =
    match (warns.filter (fun w => decide (w.wtype = S "ERROR"))).getLast? with
    | some w => some (w.time, w.code)
    | none => acc := by
  induction warns with
  | nil => intro acc; rfl
  | cons w ws ih =>
    intro acc
    rw [List.foldl_cons, ih, List.filter_cons]
    by_cases hw : w.wtype = S "ERROR"
    · have hd : decide (w.wtype = S "ERROR") = true := decide_eq_true hw
      rw [if_pos hw, hd, if_pos rfl, getLast?_cons_cases]
      cases h : (ws.filter (fun x => decide (x.wtype = S "ERROR"))).getLast? <;> rfl
    · have hd : decide (w.wtype = S "ERROR") = false := decide_eq_false hw
      rw [if_neg hw, hd]
      simp only [Bool.false_eq_true, if_false]

theorem lastErrOf_eq (warns : List WarnRec) :
    lastErrOf warns =
    ((warns.filter (fun w => decide (w.wtype = S "ERROR"))).getLast?).map
      (fun w => (w.time, w.code)) := by
  unfold lastErrOf
  rw [lastErr_foldl]
  cases h : (warns.filter (fun w => decide (w.wtype = S "ERROR"))).getLast? <;> rfl

theorem filter_map_comm {α β : Type} (f : α → β) (p : β → Bool) (l : List α) :
    (l.map f).filter p = (l.filter (fun x => p (f x))).map f := by
  induction l with
  | nil => rfl
  | cons a t ih =>
    rw [List.map_cons, List.filter_cons, List.filter_cons]
    cases h : p (f a) <;> simp [h, ih]

theorem getLast?_map_comm {α β : Type} (f : α → β) (l : List α) :
    (l.map f).getLast? = l.getLast?.map f := by
  induction l with
  | nil => rfl
  | cons a t ih =>
    cases t with
    | nil => rfl
    | cons b u =>
      rw [List.map_cons, List.map_cons, List.getLast?_cons_cons,
        List.getLast?_cons_cons, ← List.map_cons, ih]

theorem foldl_min_le (xs : List ℚ) : ∀ (x : ℚ) (y : ℚ), y ∈ x :: xs → xs.foldl min x ≤ y := by
  induction xs with
  | nil =>
    intro x y hy
    rw [List.mem_singleton] at hy
    rw [hy]
    exact le_refl x
  | cons a t ih =>
    intro x y hy
    rw [List.foldl_cons]
    rcases List.mem_cons.mp hy with h1 | h1
    · calc t.foldl min (min x a) ≤ min x a := ih _ _ (List.mem_cons_self _ _)
        _ ≤ x := min_le_left _ _
        _ = y := h1.symm
    · rcases List.mem_cons.mp h1 with h2 | h2
      · calc t.foldl min (min x a) ≤ min x a := ih _ _ (List.mem_cons_self _ _)
          _ ≤ a := min_le_right _ _
          _ = y := h2.symm
      · exact ih _ _ (List.mem_cons_of_mem _ h2)

theorem foldl_min_mem (xs : List ℚ) : ∀ x : ℚ, xs.foldl min x ∈ x :: xs := by
  induction xs with
  | nil => intro x; simp
  | cons a t ih =>
    intro x
    rw [List.foldl_cons]
    rcases List.mem_cons.mp (ih (min x a)) with h1 | h1
    · rcases min_choice x a with h2 | h2
      · rw [h1, h2]; exact List.mem_cons_self _ _
      · rw [h1, h2]; exact List.mem_cons_of_mem _ (List.mem_cons_self _ _)
    · exact List.mem_cons_of_mem _ (List.mem_cons_of_mem _ h1)

theorem foldl_max_ge (xs : List ℚ) : ∀ (x : ℚ) (y : ℚ), y ∈ x :: xs → y ≤ xs.foldl max x := by
  induction xs with
  | nil =>
    intro x y hy
    rw [List.mem_singleton] at hy
    rw [hy]
    exact le_refl x
  | cons a t ih =>
    intro x y hy
    rw [List.foldl_cons]
    rcases List.mem_cons.mp hy with h1 | h1
    · calc y = x := h1
        _ ≤ max x a := le_max_left _ _
        _ ≤ t.foldl max (max x a) := ih _ _ (List.mem_cons_self _ _)
    · rcases List.mem_cons.mp h1 with h2 | h2
      · calc y = a := h2
          _ ≤ max x a := le_max_right _ _
          _ ≤ t.foldl max (max x a) := ih _ _ (List.mem_cons_self _ _)
      · exact ih _ _ (List.mem_cons_of_mem _ h2)

theorem foldl_max_mem (xs : List ℚ) : ∀ x : ℚ, xs.foldl max x ∈ x :: xs := by
  induction xs with
  | nil => intro x; simp
  | cons a t ih =>
    intro x
    rw [List.foldl_cons]
    rcases List.mem_cons.mp (ih (max x a)) with h1 | h1
    · rcases max_choice x a with h2 | h2
      · rw [h1, h2]; exact List.mem_cons_self _ _
      · rw [h1, h2]; exact List.mem_cons_of_mem _ (List.mem_cons_self _ _)
    · exact List.mem_cons_of_mem _ (List.mem_cons_of_mem _ h1)

theorem pyMin_mem {l : List ℚ} (h : l ≠ []) : pyMin l ∈ l := by
  cases l with
  | nil => exact absurd rfl h
  | cons x xs => exact foldl_min_mem xs x

theorem pyMin_le {l : List ℚ} (h : l ≠ []) : ∀ y ∈ l, pyMin l ≤ y := by
  cases l with
  | nil => exact absurd rfl h
  | cons x xs => exact fun y hy => foldl_min_le xs x y hy

theorem pyMax_mem {l : List ℚ} (h : l ≠ []) : pyMax l ∈ l := by
  cases l with
  | nil => exact absurd rfl h
  | cons x xs => exact foldl_max_mem xs x

theorem pyMax_ge {l : List ℚ} (h : l ≠ []) : ∀ y ∈ l, y ≤ pyMax l := by
  cases l with
  | nil => exact absurd rfl h
  | cons x xs => exact fun y hy => foldl_max_ge xs x y hy

theorem firstLast_mem {l : List ℚ} : ∀ y ∈ firstLast l, y ∈ l := by
  cases l with
  | nil => simp [firstLast]
  | cons x xs =>
    intro y hy
    unfold firstLast at hy
    rcases List.mem_cons.mp hy with h1 | h1
    · rw [h1]; exact List.mem_cons_self _ _
    · rw [List.mem_singleton] at h1
      rw [h1]
      exact List.getLast_mem _

theorem fixBounds_lt (p : ℚ × ℚ) : (fixBounds p).1 < (fixBounds p).2 := by
  unfold fixBounds
  split
  · split
    · rename_i h0
      show p.1 < 1
      rw [h0]
      norm_num
    · exact lt_add_one _
  · rename_i h
    exact lt_of_not_ge h

theorem fixBounds_nonneg {p : ℚ × ℚ} (h1 : 0 ≤ p.1) (h2 : 0 ≤ p.2) :
    0 ≤ (fixBounds p).1 ∧ 0 ≤ (fixBounds p).2 := by
  unfold fixBounds
  split
  · split
    · exact ⟨h1, by norm_num⟩
    · exact ⟨h1, by positivity⟩
  · exact ⟨h1, h2⟩

theorem inferBounds_nonneg {s0 e0 : ℚ} {dqT wT : List ℚ} (hs : 0 ≤ s0) (he : 0 ≤ e0)
    (hdq : ∀ y ∈ dqT, 0 ≤ y) (hwt : ∀ y ∈ wT, 0 ≤ y) :
    0 ≤ (inferBounds s0 e0 dqT wT).1 ∧ 0 ≤ (inferBounds s0 e0 dqT wT).2 := by
  have hpool : ∀ y ∈ firstLast dqT ++ firstLast wT, 0 ≤ y := by
    intro y hy
    rcases List.mem_append.mp hy with h1 | h1
    · exact hdq y (firstLast_mem y h1)
    · exact hwt y (firstLast_mem y h1)
  unfold inferBounds
  split
  · split
    · exact ⟨hs, he⟩
    · rename_i hne
      have hpne : firstLast dqT ++ firstLast wT ≠ [] := by
        intro hx
        rw [hx] at hne
        simp at hne
      constructor
      · show 0 ≤ if s0 = 0 then pyMin (firstLast dqT ++ firstLast wT) else s0
        split
        · exact hpool _ (pyMin_mem hpne)
        · exact hs
      · show 0 ≤ if e0 = 0 then pyMax (firstLast dqT ++ firstLast wT) else e0
        split
        · exact hpool _ (pyMax_mem hpne)
        · exact he
  · exact ⟨hs, he⟩

/-- Comparison nq/dq < 2^(e+53), carried out in Nat arithmetic (both sides
scaled by the positive power that clears the exponent). -/
def dblLt (nq dq : Nat) (e : Int) : Bool :=
  nq * 2 ^ ((-(e + 53)).toNat) < dq * 2 ^ ((e + 53).toNat)

/-- Upward exponent scan: the first probe (advancing by `stp`) at which
nq/dq < 2^(e+53) holds, within the given fuel. -/
def dblScan (nq dq : Nat) (stp : Int) : Nat → Int → Int
  | 0, e => e
  | f + 1, e => if dblLt nq dq e then e else dblScan nq dq stp f (e + stp)

/-- The ulp exponent of the binary64 neighborhood of nq/dq > 0: the least
e ≥ -1074 with nq/dq < 2^53 * 2^e, located by a coarse 64-step scan over
the IEEE binary64 exponent range and a fine scan of the last window. The
floor at -1074 is the subnormal grid; magnitudes at or beyond 2^1024
overflow to infinity in binary64, which ℚ cannot represent, and lie
outside this model. -/
def dblExp (nq dq : Nat) : Int :=
  let c := dblScan nq dq 64 33 (-1074)
  if c = -1074 then -1074 else dblScan nq dq 1 65 (c - 64)

/-- Round a positive rational onto the binary64 grid: 53-bit significand,
round to nearest, ties to even, subnormals on the fixed 2^-1074 grid. The
mantissa and the tie test are computed in exact Nat arithmetic. -/
def roundDblPos (q : ℚ) : ℚ :=
  ((let e : Int := dblExp q.num.natAbs q.den
    let N : Nat := q.num.natAbs * 2 ^ ((-e).toNat)
    let D : Nat := q.den * 2 ^ e.toNat
    let m : Nat := N / D
    let r : Nat := N % D
    let m2 : Nat :=
      if 2 * r < D then m
      else if D < 2 * r then m + 1
      else if m % 2 = 0 then m else m + 1
    if 0 ≤ e then (m2 : ℚ) * (2 : ℚ) ^ e.toNat
    else (m2 : ℚ) / (2 : ℚ) ^ (-e).toNat) : ℚ)

/-- Round to the nearest binary64 value (ties to even), as a map on exact
rationals; rounding is symmetric in the sign. -/
def roundDbl (q : ℚ) : ℚ :=
  if q = 0 then 0
  else if q < 0 then -roundDblPos (-q) else roundDblPos q

/-- Python float() under the IEEE binary64 arithmetic the source actually
runs: the token's exact decimal value, correctly rounded to the nearest
double with ties to even (CPython's float() is correctly rounded). -/
def pyFloatD (v : List Nat) : Option ℚ := (pyFloat v).map roundDbl

/-- Start-time step with binary64 parsing. -/
def startTime0D (bs : List Nat) : Option ℚ :=
  match search reStartToks (bs.take 5000) with
  | some (caps, _, _) => pyFloatD (capGet caps 1)
  | none => some 0

/-- End-time step with binary64 parsing. -/
def endTime0D (bs : List Nat) : Option ℚ :=
  match search reEndToks (lastN 5000 bs) with
  | some (caps, _, _) => pyFloatD (capGet caps 1)
  | none => some 0

/-- One RE_CONV match's rows with binary64 parsing. -/
def convPairD (caps : Caps) : Option (ConvRec × ConvRec) :=
  match pyFloatD (capGet caps 1) with
  | none => none
  | some t =>
    match pyFloatD (capGet caps 2) with
    | none => none
    | some v2 =>
      match pyFloatD (capGet caps 4) with
      | none => none
      | some v4 =>
        some (⟨t, v2, decodeIg (capGet caps 3)⟩, ⟨t, v4, decodeIg (capGet caps 5)⟩)

/-- One RE_WARN match's row with binary64 parsing. -/
def warnRec0D (caps : Caps) : Option WarnRec :=
  match pyFloatD (capGet caps 1) with
  | none => none
  | some t =>
    some ⟨t, upperB (decodeIg (capGet caps 2)), decodeIg (capGet caps 3),
      decodeIg (capGet caps 4), []⟩

/-- The forced valid duration under binary64 arithmetic: `start_time + 1.0`
is the exact sum rounded to the nearest double, which is how the source's
float addition behaves (min, max and the 0.0/1.0 literals are exact). -/
def fixBoundsD (p : ℚ × ℚ) : ℚ × ℚ :=
  if p.1 ≥ p.2 then (if p.1 = 0 then (p.1, 1) else (p.1, roundDbl (p.1 + 1)))
  else p

/-- Steps C, D and E under binary64 arithmetic. -/
def assembleD (tbl : List (List Nat × List Nat)) (bs : List Nat) (s0 e0 : ℚ)
    (pairs : List (ConvRec × ConvRec)) (warns : List WarnRec) : ParseResult :=
  let dq := pairs.map Prod.fst
  let dh := pairs.map Prod.snd
  let lastErr := lastErrOf warns
  let isFatal := containsSub fatalMarker (lastN 2000 bs)
  let p := fixBoundsD (inferBounds s0 e0 (dq.map ConvRec.time) (warns.map WarnRec.time))
  { dq := dq
    dh := dh
    warnings := warns.map (attachNoteT tbl)
    start := p.1
    endT := p.2
    fail_t := if isFatal then lastErr.map Prod.fst else none
    fail_c := if isFatal then lastErr.map Prod.snd else none }

/-- The extraction engine with its float values given binary64 semantics:
parsed tokens are correctly rounded doubles and the ordering step's
addition rounds; everything else is exact in binary64 as in the source. -/
def extractTD (tbl : List (List Nat × List Nat)) (bs : List Nat) : Option ParseResult :=
  match startTime0D bs with
  | none => none
  | some s0 =>
    match endTime0D bs with
    | none => none
    | some e0 =>
      match mapOpt convPairD (finditer reConvToks bs) with
      | none => none
      | some pairs =>
        match mapOpt warnRec0D (finditer reWarnToks bs) with
        | none => none
        | some warns => some (assembleD tbl bs s0 e0 pairs warns)

/-- The source's `extract_zzd_data` under binary64 float semantics. -/
def extract_zzd_dataD (bs : List Nat) : Option ParseResult :=
  extractTD WARNING_DESCRIPTIONS bs

set_option maxRecDepth 200000 in
/-- Counterexample to claim C2 as stated: under the binary64 arithmetic the
source actually runs, b"start time 9007199254740992" parses a start time
of 2^53, the absent end marker defaults the end to 0.0, inference finds
nothing, and the ordering step computes start_time + 1.0 - which rounds
back to 2^53 (2^53 + 1 is a tie one ulp past 2^53 and ties go to the even
mantissa) - so the returned bounds satisfy start = end, not start < end. -/
theorem claim_c2_cex :
    (extract_zzd_dataD (S "start time 9007199254740992")).map
      (fun r => (r.start, r.endT)) = some (2 ^ 53, 2 ^ 53) ∧
    ¬((2 : ℚ) ^ 53 < 2 ^ 53) :=
  ⟨by with_unfolding_all rfl, lt_irrefl _⟩

set_option maxRecDepth 200000 in
/-- Claim C2 (amended): under exact arithmetic on the parsed times, the
returned bounds always satisfy start < end, the ordering step sets end to
start + 1 for a non-zero start and to 1 for a zero start, and the empty
buffer yields bounds (0, 1) (in the binary64 model too); under the
binary64 arithmetic the program actually runs, the strictness holds only
while start + 1.0 is strictly above start - at a parsed start of 2^53 - 1
the bounds are still strict - and fails from 2^53 on (see the
counterexample). -/
theorem claim_c2 :
    (∀ (bs : List Nat) (r : ParseResult), extract_zzd_data bs = some r →
      r.start < r.endT) ∧
    (∀ p : ℚ × ℚ, p.2 ≤ p.1 →
      fixBounds p = (p.1, if p.1 = 0 then 1 else p.1 + 1)) ∧
    (extract_zzd_data []).map (fun r => (r.start, r.endT)) = some (0, 1) ∧
    (extract_zzd_dataD []).map (fun r => (r.start, r.endT)) = some (0, 1) ∧
    (extract_zzd_dataD (S "start time 9007199254740991")).map
      (fun r => (r.start, r.endT)) = some (2 ^ 53 - 1, 2 ^ 53) := by
  refine ⟨?_, ?_, ?_, ?_, ?_⟩
  · intro bs r h
    unfold extract_zzd_data at h
    obtain ⟨s0, e0, pairs, warns, _, _, _, _, hr⟩ := extractT_some_iff.mp h
    rw [hr]
    exact fixBounds_lt _
  · intro p hp
    unfold fixBounds
    rw [if_pos hp]
    by_cases h0 : p.1 = 0
    · rw [if_pos h0, if_pos h0]
    · rw [if_neg h0, if_neg h0]
  · rfl
  · rfl
  · with_unfolding_all rfl

/-- Witness for claim C2: the empty buffer's bounds, and the ordering step
at the inverted pair (2, 1). -/
theorem claim_c2_witness :
    ((⟨[], [], [], 0, 1, none, none⟩ : ParseResult).start <
      (⟨[], [], [], 0, 1, none, none⟩ : ParseResult).endT) ∧
    fixBounds ((2 : ℚ), (1 : ℚ)) = (2, if (2 : ℚ) = 0 then 1 else 2 + 1) :=
  ⟨claim_c2.1 [] ⟨[], [], [], 0, 1, none, none⟩ rfl,
   claim_c2.2.1 (2, 1) (by norm_num)⟩

/-- Claim C9: extraction is deterministic and touches no shared mutable
state: a call leaves the (read-only) reference table unchanged, and a
second call on the identical buffer, run in the state the first call left
behind, returns a structurally identical result. -/
theorem claim_c9 : ∀ bs : List Nat,
    (extractCall WARNING_DESCRIPTIONS bs).2 = WARNING_DESCRIPTIONS ∧
    (extractCall ((extractCall WARNING_DESCRIPTIONS bs).2) bs).1 =
      (extractCall WARNING_DESCRIPTIONS bs).1 ∧
    (extractCall WARNING_DESCRIPTIONS bs).1 = extract_zzd_data bs := by
  intro bs
  exact ⟨rfl, rfl, rfl⟩

theorem search_lit_replicate {b : Nat} {ts : List Tok} (hb : ciEq b 32 = false) :
    ∀ n, search (Tok.lit b :: ts) (List.replicate n 32) = none := by
  intro n
  induction n with
  | zero =>
    rw [List.replicate_zero, search]
    have hm : mtch (Tok.lit b :: ts) [] [] [] = none := rfl
    rw [hm]
  | succ n ih =>
    rw [List.replicate_succ, search]
    have hm : mtch (Tok.lit b :: ts) (32 :: List.replicate n 32) [] [] = none := by
      unfold mtch
      rw [mtchF]
      simp [hb]
    rw [hm, ih]

theorem lastN_lastN (n : Nat) (l : List Nat) : lastN n (lastN n l) = lastN n l := by
  unfold lastN
  rw [List.length_drop]
  have : l.length - (l.length - n) - n = 0 := by omega
  rw [this, List.drop_zero]

/-- Claim C5: the start-time matcher reads only the first 5000 bytes and
the end-time matcher only the last 5000 bytes; a marker lying wholly
outside its window is not found, so the bound defaults to 0.0 (shown on a
buffer whose marker begins only after 5000 padding bytes, resp. ends
before the last 5000 bytes). -/
theorem claim_c5 :
    (∀ bs : List Nat, startTime0 bs = startTime0 (bs.take 5000)) ∧
    (∀ bs : List Nat, endTime0 bs = endTime0 (lastN 5000 bs)) ∧
    startTime0 (List.replicate 5000 32 ++ S "start time 7") = some 0 ∧
    endTime0 (S "end time 9" ++ List.replicate 5000 32) = some 0 := by
  refine ⟨?_, ?_, ?_, ?_⟩
  · intro bs
    unfold startTime0
    rw [List.take_take, min_self]
  · intro bs
    unfold endTime0
    rw [lastN_lastN]
  · unfold startTime0
    have ht : (List.replicate 5000 32 ++ S "start time 7").take 5000 =
        List.replicate 5000 32 :=
      List.take_left' (List.length_replicate 5000 32)
    rw [ht]
    obtain ⟨ts, hts⟩ : ∃ ts, reStartToks = Tok.lit 115 :: ts := ⟨_, rfl⟩
    rw [hts, search_lit_replicate (by decide) 5000]
  · unfold endTime0
    have ht : lastN 5000 (S "end time 9" ++ List.replicate 5000 32) =
        List.replicate 5000 32 := by
      unfold lastN
      rw [List.length_append, List.length_replicate]
      have h10 : (S "end time 9").length = 10 := by rfl
      rw [h10]
      have : 10 + 5000 - 5000 = (S "end time 9").length := by rw [h10]
      rw [this, List.drop_left]
    rw [ht]
    obtain ⟨ts, hts⟩ : ∃ ts, reEndToks = Tok.lit 101 :: ts := ⟨_, rfl⟩
    rw [hts, search_lit_replicate (by decide) 5000]

/-- A buffer with no explicit start/end markers and three diagnostic events
at times 3.0, 7.5 and 12.0 (the inference example of the spec). -/
def c4buf : List Nat :=
  S "Model time 3.0\n*** warning W2014 *** at label: U5\nModel time 7.5\n*** note N3002 *** at label: U6\nModel time 12.0\n*** error E1900 *** at label: U7"

set_option maxRecDepth 100000 in
/-- Claim C4: when the parsed start or end time is 0.0, the inference step
pools the first and last convergence-sample times and the first and last
diagnostic-event times; a non-empty pool replaces a 0.0 start with its
minimum and a 0.0 end with its maximum (the replacement is a member of the
pool below resp. above all its elements; a non-zero bound is kept); a
buffer with no markers and diagnostic events at 3.0, 7.5, 12.0 yields
bounds (3, 12). -/
theorem claim_c4 :
    (∀ (s0 e0 : ℚ) (dqT wT : List ℚ),
      s0 = 0 ∨ e0 = 0 →
      firstLast dqT ++ firstLast wT ≠ [] →
      ((s0 = 0 →
          (inferBounds s0 e0 dqT wT).1 ∈ firstLast dqT ++ firstLast wT ∧
          ∀ y ∈ firstLast dqT ++ firstLast wT, (inferBounds s0 e0 dqT wT).1 ≤ y) ∧
       (s0 ≠ 0 → (inferBounds s0 e0 dqT wT).1 = s0) ∧
       (e0 = 0 →
          (inferBounds s0 e0 dqT wT).2 ∈ firstLast dqT ++ firstLast wT ∧
          ∀ y ∈ firstLast dqT ++ firstLast wT, y ≤ (inferBounds s0 e0 dqT wT).2) ∧
       (e0 ≠ 0 → (inferBounds s0 e0 dqT wT).2 = e0))) ∧
    (extract_zzd_data c4buf).map (fun r => (r.start, r.endT)) = some (3, 12) := by
  constructor
  · intro s0 e0 dqT wT hor hne
    have hemp : (firstLast dqT ++ firstLast wT).isEmpty = false := by
      cases hx : firstLast dqT ++ firstLast wT with
      | nil => exact absurd hx hne
      | cons a t => rfl
    unfold inferBounds
    rw [if_pos hor, hemp]
    simp only [Bool.false_eq_true, if_false]
    refine ⟨?_, ?_, ?_, ?_⟩
    · intro hs0
      rw [if_pos hs0]
      exact ⟨pyMin_mem hne, pyMin_le hne⟩
    · intro hs0
      rw [if_neg hs0]
    · intro he0
      rw [if_pos he0]
      exact ⟨pyMax_mem hne, fun y hy => pyMax_ge hne y hy⟩
    · intro he0
      rw [if_neg he0]
  · with_unfolding_all rfl

/-- A buffer with ERROR events at t=5 (E1000) and t=20 (E2000) and the
fatal marker near the end (the fatal-resolution example of the spec). -/
def c3buf : List Nat :=
  S "Model time 5\nx\n*** error E1000 *** at label: A\nModel time 20\nx\n*** error E2000 *** at label: B\nstopped in error"

set_option maxRecDepth 100000 in
/-- Claim C3: the fatal status is Some exactly when the fatal marker occurs
in the last 2000 bytes AND at least one ERROR event was matched, in which
case it carries the time and code of the last ERROR event (the filtered
list's last element; when the filter is empty `getLast?` is `none`, so a
marker with no ERROR event yields None, as does an absent marker); on the
two-ERROR example the result is (20, "E2000"). -/
theorem claim_c3 :
    (∀ (bs : List Nat) (r : ParseResult), extract_zzd_data bs = some r →
      (containsSub fatalMarker (lastN 2000 bs) = true →
        r.fail_t = ((r.warnings.filter (fun w => decide (w.wtype = S "ERROR"))).getLast?).map
          WarnRec.time ∧
        r.fail_c = ((r.warnings.filter (fun w => decide (w.wtype = S "ERROR"))).getLast?).map
          WarnRec.code) ∧
      (containsSub fatalMarker (lastN 2000 bs) = false →
        r.fail_t = none ∧ r.fail_c = none)) ∧
    (extract_zzd_data c3buf).map (fun r => (r.fail_t, r.fail_c)) =
      some (some 20, some (S "E2000")) := by
  constructor
  · intro bs r h
    unfold extract_zzd_data at h
    obtain ⟨s0, e0, pairs, warns, _, _, _, _, hr⟩ := extractT_some_iff.mp h
    have hwarn : r.warnings = warns.map (attachNoteT WARNING_DESCRIPTIONS) := by
      rw [hr]
      simp only [assembleT]
    have hft : r.fail_t =
        if containsSub fatalMarker (lastN 2000 bs) = true
        then (lastErrOf warns).map Prod.fst else none := by
      rw [hr]
      simp only [assembleT]
    have hfc : r.fail_c =
        if containsSub fatalMarker (lastN 2000 bs) = true
        then (lastErrOf warns).map Prod.snd else none := by
      rw [hr]
      simp only [assembleT]
    have hl : (fun x => decide ((attachNoteT WARNING_DESCRIPTIONS x).wtype = S "ERROR")) =
        (fun w : WarnRec => decide (w.wtype = S "ERROR")) := rfl
    have hfilter : r.warnings.filter (fun w => decide (w.wtype = S "ERROR")) =
        (warns.filter (fun w => decide (w.wtype = S "ERROR"))).map
          (attachNoteT WARNING_DESCRIPTIONS) := by
      rw [hwarn, filter_map_comm, hl]
    constructor
    · intro hm
      constructor
      · rw [hft, if_pos hm, hfilter, getLast?_map_comm, lastErrOf_eq,
          Option.map_map, Option.map_map]
        rfl
      · rw [hfc, if_pos hm, hfilter, getLast?_map_comm, lastErrOf_eq,
          Option.map_map, Option.map_map]
        rfl
    · intro hm
      rw [hft, hfc, hm]
      exact ⟨if_neg (by simp), if_neg (by simp)⟩
  · with_unfolding_all rfl

/-- A convergence block whose corrections follow the time line after
exactly two line breaks. -/
def c6two : List Nat :=
  S "Poor model convergence time 3\na\nb MAX DQ= 1 at A MAX DH= 2 at B"

/-- The same block with three line breaks between the time token and the
corrections. -/
def c6three : List Nat :=
  S "Poor model convergence time 3\na\nb\nc MAX DQ= 1 at A MAX DH= 2 at B"

/-- The same block with a single line break between the time token and the
corrections. -/
def c6one : List Nat :=
  S "Poor model convergence time 3\nx MAX DQ= 1 at A MAX DH= 2 at B"

set_option maxRecDepth 100000 in
/-- Counterexample to claim C6 as stated: a block whose flow-correction
line is separated from the time line by three line breaks - not the
claimed exact two-line shape - still matches and produces a sample. -/
theorem claim_c6_cex :
    (extract_zzd_data c6three).map (fun r => r.dq.length) = some 1 := by
  with_unfolding_all rfl

set_option maxRecDepth 100000 in
/-- Claim C6 (amended): the convergence pattern requires at least two line
breaks between the time token and the correction tokens - matching is
DOTALL, so any further intervening lines are absorbed. A block with two
line breaks matches, one with three line breaks also matches, and one with
fewer than two does not match at all. -/
theorem claim_c6 :
    (extract_zzd_data c6two).map (fun r => (r.dq, r.dh)) =
      some ([⟨3, 1, S "A"⟩], [⟨3, 2, S "B"⟩]) ∧
    (extract_zzd_data c6three).map (fun r => (r.dq, r.dh)) =
      some ([⟨3, 1, S "A"⟩], [⟨3, 2, S "B"⟩]) ∧
    (extract_zzd_data c6one).map (fun r => (r.dq.length, r.dh.length)) = some (0, 0) := by
  refine ⟨?_, ?_, ?_⟩ <;> with_unfolding_all rfl

theorem map_eq_of_mem {α β : Type} {f g : α → β} : ∀ {l : List α},
    (∀ x ∈ l, f x = g x) → l.map f = l.map g := by
  intro l
  induction l with
  | nil => intro _; rfl
  | cons a t ih =>
    intro h
    rw [List.map_cons, List.map_cons, h a (List.mem_cons_self _ _),
      ih (fun x hx => h x (List.mem_cons_of_mem _ hx))]

/-- The convergence-pairing example of the spec: time 10.5, flow correction
0.003 at N1, head correction 0.012 at N2. -/
def c7buf : List Nat :=
  S "Poor model convergence at time 10.5 hrs\nfoo\nbar MAX DQ= 0.003 at N1 MAX DH= 0.012 at N2"

/-- A block reporting only a flow correction and no head correction. -/
def c7missing : List Nat :=
  S "Poor model convergence time 9\n\n MAX DQ= 0.1 at N7"

set_option maxRecDepth 100000 in
/-- Claim C7: the DQ and DH record sequences always carry the same times
position by position (each matched block appends one row to each, sharing
the block's time); the spec's example block yields exactly the expected
single pair (0.003 = 3/1000, 0.012 = 3/250, 10.5 = 21/2, and the forced
end bound 11.5 = 23/2), and a block missing the head correction yields no
record at all. -/
theorem claim_c7 :
    (∀ (bs : List Nat) (r : ParseResult), extract_zzd_data bs = some r →
      r.dq.length = r.dh.length ∧ r.dq.map ConvRec.time = r.dh.map ConvRec.time) ∧
    extract_zzd_data c7buf =
      some ⟨[⟨21/2, 3/1000, S "N1"⟩], [⟨21/2, 3/250, S "N2"⟩], [], 21/2, 23/2,
        none, none⟩ ∧
    (extract_zzd_data c7missing).map (fun r => (r.dq.length, r.dh.length)) =
      some (0, 0) := by
  refine ⟨?_, ?_, ?_⟩
  · intro bs r h
    unfold extract_zzd_data at h
    obtain ⟨s0, e0, pairs, warns, _, _, hp, _, hr⟩ := extractT_some_iff.mp h
    have hdq : r.dq = pairs.map Prod.fst := by
      rw [hr]
      simp only [assembleT]
    have hdh : r.dh = pairs.map Prod.snd := by
      rw [hr]
      simp only [assembleT]
    constructor
    · rw [hdq, hdh, List.length_map, List.length_map]
    · rw [hdq, hdh, List.map_map, List.map_map]
      refine map_eq_of_mem ?_
      intro p hp2
      obtain ⟨caps, _, hcp⟩ := mapOpt_mem hp p hp2
      exact ((convPair_time hcp).2).symm
  · with_unfolding_all rfl
  · with_unfolding_all rfl

set_option maxRecDepth 100000 in
theorem table_vals_ne_nil :
    WARNING_DESCRIPTIONS.all (fun p => !p.2.isEmpty) = true := by
  with_unfolding_all rfl

/-- Claim C8: every diagnostic event in a returned result carries the
description the reference table gives its code, with the literal fallback
"Unknown Warning" when the code is absent - and it is never the empty
string (every table entry is non-empty, and so is the fallback). -/
theorem claim_c8 : ∀ (bs : List Nat) (r : ParseResult), extract_zzd_data bs = some r →
    ∀ w ∈ r.warnings,
      w.note = (List.lookup w.code WARNING_DESCRIPTIONS).getD (S "Unknown Warning") ∧
      w.note ≠ [] := by
  intro bs r h w hw
  unfold extract_zzd_data at h
  obtain ⟨s0, e0, pairs, warns, _, _, _, _, hr⟩ := extractT_some_iff.mp h
  have hwarn : r.warnings = warns.map (attachNoteT WARNING_DESCRIPTIONS) := by
    rw [hr]
    simp only [assembleT]
  rw [hwarn] at hw
  obtain ⟨w0, hw0, hweq⟩ := List.mem_map.mp hw
  rw [← hweq]
  constructor
  · rfl
  · show (List.lookup w0.code WARNING_DESCRIPTIONS).getD (S "Unknown Warning") ≠ []
    cases hlk : List.lookup w0.code WARNING_DESCRIPTIONS with
    | none =>
      rw [Option.getD_none]
      decide
    | some v =>
      rw [Option.getD_some]
      have hmem := lookup_mem hlk
      have hne := List.all_eq_true.mp table_vals_ne_nil _ hmem
      simp only [Bool.not_eq_true', List.isEmpty_eq_false_iff_exists_mem] at hne
      intro hnil
      rw [hnil] at hne
      simp at hne

/-- A buffer with one diagnostic event whose code Q9999 is not in the
reference table. -/
def c8buf : List Nat := S "Model time 2\nx\n*** warning Q9999 *** at label: L1"

/-- Witness for claim C8: the unknown-code event of `c8buf` resolves to the
fallback description and is non-empty. -/
theorem claim_c8_witness :
    (⟨2, S "WARNING", S "Q9999", S "L1", S "Unknown Warning"⟩ : WarnRec).note =
      (List.lookup (⟨2, S "WARNING", S "Q9999", S "L1", S "Unknown Warning"⟩ : WarnRec).code
        WARNING_DESCRIPTIONS).getD (S "Unknown Warning") ∧
    (⟨2, S "WARNING", S "Q9999", S "L1", S "Unknown Warning"⟩ : WarnRec).note ≠ [] :=
  claim_c8 c8buf
    ⟨[], [], [⟨2, S "WARNING", S "Q9999", S "L1", S "Unknown Warning"⟩], 2, 3, none, none⟩
    (by with_unfolding_all rfl)
    ⟨2, S "WARNING", S "Q9999", S "L1", S "Unknown Warning"⟩
    (List.mem_singleton.mpr rfl)

/-- A convergence block whose flow- and head-correction value tokens are
not numeric: the `\S+` groups match them, and `float()` raises. -/
def c1cex : List Nat :=
  S "Poor model convergence time 1\n\nMAX DQ= a at b MAX DH= c at d"

set_option maxRecDepth 100000 in
/-- Counterexample to claim C1 as stated: on this buffer the convergence
pattern matches with value tokens `a` and `c`, the `float()` conversion of
a captured token fails, and extraction raises instead of returning a
ParseResult (modelled as `none`). -/
theorem claim_c1_cex : extract_zzd_data c1cex = none := by
  with_unfolding_all rfl

/-- Claim C1 (amended): extraction completes and returns a ParseResult on
every byte sequence whose matched convergence blocks carry parseable
flow- and head-correction value tokens (groups 2 and 4, matched by `\S+`);
the conversions of the captured time tokens (group 1 of every pattern)
never fail, because that group matches only digit-shaped text. -/
theorem claim_c1 : ∀ bs : List Nat,
    (∀ caps ∈ finditer reConvToks bs,
      (pyFloat (capGet caps 2)).isSome = true ∧ (pyFloat (capGet caps 4)).isSome = true) →
    (extract_zzd_data bs).isSome = true ∧
    (∀ caps ∈ finditer reConvToks bs, (pyFloat (capGet caps 1)).isSome = true) ∧
    (∀ caps ∈ finditer reWarnToks bs, (pyFloat (capGet caps 1)).isSome = true) := by
  intro bs hval
  have hconv1 : ∀ caps ∈ finditer reConvToks bs, (pyFloat (capGet caps 1)).isSome = true := by
    intro caps hc
    obtain ⟨q, hq, _⟩ := pyFloat_of_shape (finditer_cap1 reConv_noClose1 reConv_hasNum hc)
    rw [hq]
    rfl
  have hwarn1 : ∀ caps ∈ finditer reWarnToks bs, (pyFloat (capGet caps 1)).isSome = true := by
    intro caps hc
    obtain ⟨q, hq, _⟩ := pyFloat_of_shape (finditer_cap1 reWarn_noClose1 reWarn_hasNum hc)
    rw [hq]
    rfl
  refine ⟨?_, hconv1, hwarn1⟩
  unfold extract_zzd_data extractT
  obtain ⟨s0, hs0, _⟩ := startTime0_spec bs
  obtain ⟨e0, he0, _⟩ := endTime0_spec bs
  rw [hs0, he0]
  have hpairs : (mapOpt convPair (finditer reConvToks bs)).isSome := by
    apply mapOpt_isSome
    intro caps hc
    obtain ⟨t, ht⟩ := Option.isSome_iff_exists.mp (hconv1 caps hc)
    obtain ⟨v2, hv2⟩ := Option.isSome_iff_exists.mp (hval caps hc).1
    obtain ⟨v4, hv4⟩ := Option.isSome_iff_exists.mp (hval caps hc).2
    unfold convPair
    rw [ht, hv2, hv4]
    rfl
  obtain ⟨pairs, hp⟩ := Option.isSome_iff_exists.mp hpairs
  rw [hp]
  have hwarns : (mapOpt warnRec0 (finditer reWarnToks bs)).isSome := by
    apply mapOpt_isSome
    intro caps hc
    obtain ⟨t, ht⟩ := Option.isSome_iff_exists.mp (hwarn1 caps hc)
    unfold warnRec0
    rw [ht]
    rfl
  obtain ⟨warns, hwn⟩ := Option.isSome_iff_exists.mp hwarns
  rw [hwn]
  rfl

/-- Witness for (amended) claim C1 at the empty buffer, where no
convergence block matches and the hypothesis holds vacuously. -/
theorem claim_c1_witness :
    (extract_zzd_data []).isSome = true ∧
    (∀ caps ∈ finditer reConvToks [], (pyFloat (capGet caps 1)).isSome = true) ∧
    (∀ caps ∈ finditer reWarnToks [], (pyFloat (capGet caps 1)).isSome = true) :=
  claim_c1 [] (by decide)

/-- Claim C10: every time value in a returned result is non-negative - the
bounds and every convergence and diagnostic time - because time tokens are
unsigned digit strings, absent markers default to 0.0, and inference and
ordering only take minima and maxima of such values or add one. -/
theorem claim_c10 : ∀ (bs : List Nat) (r : ParseResult), extract_zzd_data bs = some r →
    0 ≤ r.start ∧ 0 ≤ r.endT ∧ (∀ c ∈ r.dq, 0 ≤ c.time) ∧
    (∀ c ∈ r.dh, 0 ≤ c.time) ∧ (∀ w ∈ r.warnings, 0 ≤ w.time) := by
  intro bs r h
  unfold extract_zzd_data at h
  obtain ⟨s0, e0, pairs, warns, hs0, he0, hp, hwn, hr⟩ := extractT_some_iff.mp h
  have hpair : ∀ p ∈ pairs, 0 ≤ (p : ConvRec × ConvRec).1.time ∧ 0 ≤ p.2.time := by
    intro p hp2
    obtain ⟨caps, hcm, hcp⟩ := mapOpt_mem hp p hp2
    obtain ⟨q, hq, hq0⟩ := pyFloat_of_shape (finditer_cap1 reConv_noClose1 reConv_hasNum hcm)
    have ht := (convPair_time hcp).1
    rw [hq] at ht
    have hqe : q = p.1.time := by injection ht
    exact ⟨hqe ▸ hq0, ((convPair_time hcp).2).symm ▸ hqe ▸ hq0⟩
  have hwarnt : ∀ w ∈ warns, 0 ≤ (w : WarnRec).time := by
    intro w hw2
    obtain ⟨caps, hcm, hcp⟩ := mapOpt_mem hwn w hw2
    obtain ⟨q, hq, hq0⟩ := pyFloat_of_shape (finditer_cap1 reWarn_noClose1 reWarn_hasNum hcm)
    have ht := warnRec0_time hcp
    rw [hq] at ht
    have hqe : q = w.time := by injection ht
    exact hqe ▸ hq0
  have hs0n : 0 ≤ s0 := by
    obtain ⟨q, hq, hq0⟩ := startTime0_spec bs
    rw [hs0] at hq
    have : s0 = q := by injection hq
    exact this ▸ hq0
  have he0n : 0 ≤ e0 := by
    obtain ⟨q, hq, hq0⟩ := endTime0_spec bs
    rw [he0] at hq
    have : e0 = q := by injection hq
    exact this ▸ hq0
  have hdqT : ∀ y ∈ (pairs.map Prod.fst).map ConvRec.time, 0 ≤ y := by
    intro y hy
    rw [List.map_map] at hy
    obtain ⟨p, hp2, hpe⟩ := List.mem_map.mp hy
    exact hpe ▸ (hpair p hp2).1
  have hwT : ∀ y ∈ warns.map WarnRec.time, 0 ≤ y := by
    intro y hy
    obtain ⟨w, hw2, hwe⟩ := List.mem_map.mp hy
    exact hwe ▸ hwarnt w hw2
  have hib := inferBounds_nonneg hs0n he0n hdqT hwT
  have hfb := fixBounds_nonneg hib.1 hib.2
  have hdq : r.dq = pairs.map Prod.fst := by
    rw [hr]
    simp only [assembleT]
  have hdh : r.dh = pairs.map Prod.snd := by
    rw [hr]
    simp only [assembleT]
  have hwarn : r.warnings = warns.map (attachNoteT WARNING_DESCRIPTIONS) := by
    rw [hr]
    simp only [assembleT]
  refine ⟨?_, ?_, ?_, ?_, ?_⟩
  · rw [hr]
    exact hfb.1
  · rw [hr]
    exact hfb.2
  · intro c hc
    rw [hdq] at hc
    obtain ⟨p, hp2, hpe⟩ := List.mem_map.mp hc
    exact hpe ▸ (hpair p hp2).1
  · intro c hc
    rw [hdh] at hc
    obtain ⟨p, hp2, hpe⟩ := List.mem_map.mp hc
    exact hpe ▸ (hpair p hp2).2
  · intro w hw2
    rw [hwarn] at hw2
    obtain ⟨w0, hw0, hwe⟩ := List.mem_map.mp hw2
    have : (attachNoteT WARNING_DESCRIPTIONS w0).time = w0.time := rfl
    rw [← hwe, this]
    exact hwarnt w0 hw0

/-- Witness for claim C10 at the empty buffer. -/
theorem claim_c10_witness :
    0 ≤ (⟨[], [], [], 0, 1, none, none⟩ : ParseResult).start ∧
    0 ≤ (⟨[], [], [], 0, 1, none, none⟩ : ParseResult).endT ∧
    (∀ c ∈ (⟨[], [], [], 0, 1, none, none⟩ : ParseResult).dq, 0 ≤ c.time) ∧
    (∀ c ∈ (⟨[], [], [], 0, 1, none, none⟩ : ParseResult).dh, 0 ≤ c.time) ∧
    (∀ w ∈ (⟨[], [], [], 0, 1, none, none⟩ : ParseResult).warnings, 0 ≤ w.time) :=
  claim_c10 [] ⟨[], [], [], 0, 1, none, none⟩ rfl

/-- Witness for claim C3 at the empty buffer (the fatal marker is absent
there, so both fatal fields are None). -/
theorem claim_c3_witness :
    (containsSub fatalMarker (lastN 2000 ([] : List Nat)) = true →
      (⟨[], [], [], 0, 1, none, none⟩ : ParseResult).fail_t =
        (((⟨[], [], [], 0, 1, none, none⟩ : ParseResult).warnings.filter
          (fun w => decide (w.wtype = S "ERROR"))).getLast?).map WarnRec.time ∧
      (⟨[], [], [], 0, 1, none, none⟩ : ParseResult).fail_c =
        (((⟨[], [], [], 0, 1, none, none⟩ : ParseResult).warnings.filter
          (fun w => decide (w.wtype = S "ERROR"))).getLast?).map WarnRec.code) ∧
    (containsSub fatalMarker (lastN 2000 ([] : List Nat)) = false →
      (⟨[], [], [], 0, 1, none, none⟩ : ParseResult).fail_t = none ∧
      (⟨[], [], [], 0, 1, none, none⟩ : ParseResult).fail_c = none) :=
  claim_c3.1 [] ⟨[], [], [], 0, 1, none, none⟩ rfl

/-- Witness for claim C4's inference characterization: a zero start and the
non-zero end 5 with diagnostic times 3 and 12 in the pool. -/
theorem claim_c4_witness :
    ((0 : ℚ) = 0 →
      (inferBounds 0 5 [] [3, 12]).1 ∈ firstLast [] ++ firstLast [3, 12] ∧
      ∀ y ∈ firstLast [] ++ firstLast [3, 12], (inferBounds 0 5 [] [3, 12]).1 ≤ y) ∧
    ((0 : ℚ) ≠ 0 → (inferBounds 0 5 [] [3, 12]).1 = 0) ∧
    ((5 : ℚ) = 0 →
      (inferBounds 0 5 [] [3, 12]).2 ∈ firstLast [] ++ firstLast [3, 12] ∧
      ∀ y ∈ firstLast [] ++ firstLast [3, 12], y ≤ (inferBounds 0 5 [] [3, 12]).2) ∧
    ((5 : ℚ) ≠ 0 → (inferBounds 0 5 [] [3, 12]).2 = 5) :=
  claim_c4.1 0 5 [] [3, 12] (Or.inl rfl) (by decide)

set_option maxRecDepth 100000 in
/-- Witness for claim C7's pairing law at the example block. -/
theorem claim_c7_witness :
    (⟨[⟨21/2, 3/1000, S "N1"⟩], [⟨21/2, 3/250, S "N2"⟩], [], 21/2, 23/2, none,
      none⟩ : ParseResult).dq.length =
      (⟨[⟨21/2, 3/1000, S "N1"⟩], [⟨21/2, 3/250, S "N2"⟩], [], 21/2, 23/2, none,
        none⟩ : ParseResult).dh.length ∧
    (⟨[⟨21/2, 3/1000, S "N1"⟩], [⟨21/2, 3/250, S "N2"⟩], [], 21/2, 23/2, none,
      none⟩ : ParseResult).dq.map ConvRec.time =
    (⟨[⟨21/2, 3/1000, S "N1"⟩], [⟨21/2, 3/250, S "N2"⟩], [], 21/2, 23/2, none,
      none⟩ : ParseResult).dh.map ConvRec.time :=
  claim_c7.1 c7buf
    ⟨[⟨21/2, 3/1000, S "N1"⟩], [⟨21/2, 3/250, S "N2"⟩], [], 21/2, 23/2, none, none⟩
    (by with_unfolding_all rfl)
